import Mathlib

/-!
Multisample corruption tests

A shallow embedding of the two diagnostic programs of the repository:

* `MultisampleCorruptionTest/MultisampleCorruptionTest/main.cpp`
  (namespace `VariantA`): 215 dynamic multisample buffers, selected round robin,
  next to one static buffer that is drawn once;
* `MultisampleCorruptionTestAMD/MultisampleCorruptionTest/main.cpp`
  (namespace `VariantB`): a single multisample buffer that grows by the factor
  `1.2` each frame until an error flag or the maximum size stops it.

Conventions of the embedding.

* `GLsizei`, `GLint` and `int` are mathematical integers, `GLuint` is a natural
  number; the conversion of a signed value to `GLuint` is `toGLuint`
  (reduction modulo `2 ^ 32`).
* `GLfloat` and `double` values are the rationals they denote.  Every
  arithmetic operation rounds to nearest, ties to even, in binary32 resp.
  binary64 (`roundF32`, `roundF64`); only finite values occur.
* Undefined behaviour of C++ (a floating value converted to an integer type
  that cannot hold it, signed overflow, an array index out of bounds) is the
  result `none`.
* What the OpenGL driver answers (error codes, framebuffer status, pixels read
  back) is an input of each operation; `sinf` and `cosf` of the C library are
  the parameter `Libm`.
* In variant B the framebuffer bound for drawing is part of the state: every
  `glBindFramebuffer` with target `GL_FRAMEBUFFER` or `GL_DRAW_FRAMEBUFFER` is
  an assignment to it, and a `glClear` clears the framebuffer it names.
* The calls a frame makes are returned as a list of events.
-/

/-! ## Machine numbers -/

/-- A 32 bit signed size, `GLsizei`. -/
abbrev GLsizei := ℤ

/-- A 32 bit signed integer, `GLint`. -/
abbrev GLint := ℤ

/-- A 32 bit unsigned integer, `GLuint`. -/
abbrev GLuint := ℕ

/-- A binary32 floating point number, `GLfloat`, as the rational it denotes. -/
abbrev GLfloat := ℚ

/-- Conversion of a signed 32 bit value to `GLuint`: reduction modulo `2 ^ 32`. -/
def toGLuint (x : ℤ) : GLuint := (x % 2 ^ 32).toNat

/-- Round a rational to the nearest integer, ties to the even one. -/
def rne (x : ℚ) : ℤ :=
  let f := ⌊x⌋
  let r := x - f
  if r < 1 / 2 then f
  else if 1 / 2 < r then f + 1
  else if f % 2 = 0 then f else f + 1

/-- Exponent of the unit in the last place of `x` in a binary format with `p`
significant bits and least normal exponent `emin`. -/
def ulpExp (p : ℕ) (emin : ℤ) (x : ℚ) : ℤ :=
  max (Int.log 2 |x|) emin - (p - 1)

/-- Round to nearest, ties to even, in the binary format `(p, emin)`
(no overflow to infinity: finite range only). -/
def roundBin (p : ℕ) (emin : ℤ) (x : ℚ) : ℚ :=
  rne (x / 2 ^ ulpExp p emin x) * 2 ^ ulpExp p emin x

/-- Rounding to binary32 (`float`, `GLfloat`). -/
def roundF32 (x : ℚ) : ℚ := roundBin 24 (-126) x

/-- Rounding to binary64 (`double`). -/
def roundF64 (x : ℚ) : ℚ := roundBin 53 (-1022) x

/-- Binary32 addition. -/
def fadd32 (a b : GLfloat) : GLfloat := roundF32 (a + b)

/-- Binary32 multiplication. -/
def fmul32 (a b : GLfloat) : GLfloat := roundF32 (a * b)

/-- Binary32 division. -/
def fdiv32 (a b : GLfloat) : GLfloat := roundF32 (a / b)

/-- Binary64 multiplication. -/
def fmul64 (a b : ℚ) : ℚ := roundF64 (a * b)

/-- Conversion of a `GLuint` to `double`. -/
def uintToDouble (n : GLuint) : ℚ := roundF64 (n : ℚ)

/-- The `double` literal `1.2`. -/
def d1_2 : ℚ := roundF64 (6 / 5)

/-- Truncation toward zero. -/
def truncQ (x : ℚ) : ℤ := if 0 ≤ x then ⌊x⌋ else ⌈x⌉

/-- Conversion of a `double` to `GLsizei`: truncation toward zero, undefined
when the truncated value is not a 32 bit signed integer. -/
def doubleToGLsizei (x : ℚ) : Option GLsizei :=
  let t := truncQ x
  if -2 ^ 31 ≤ t ∧ t < 2 ^ 31 then some t else none

/-- The argument `n * 1.2` of the call of `Resize` in `Render`, for a `GLuint`
`n`: the product is taken in `double` and then converted to `GLsizei`. -/
def scaleDimension (n : GLuint) : Option GLsizei :=
  doubleToGLsizei (fmul64 (uintToDouble n) d1_2)

/-- The C library functions used by `DrawQuad`. -/
structure Libm where
  /-- Sine, `sinf`. -/
  sinf : GLfloat → GLfloat
  /-- Cosine, `cosf`. -/
  cosf : GLfloat → GLfloat

/-- A C library whose `sinf` and `cosf` stay within `[-1, 1]`, as every
faithfully rounded implementation does. -/
def Libm.InRange (m : Libm) : Prop :=
  ∀ x, (-1 ≤ m.sinf x ∧ m.sinf x ≤ 1) ∧ (-1 ≤ m.cosf x ∧ m.cosf x ≤ 1)

/-- A crude but bounded C library: the first terms of the series, clamped. -/
def Libm.crude : Libm where
  sinf x := max (-1) (min 1 x)
  cosf x := max (-1) (min 1 (1 - x * x / 2))

/-- An RGB colour. -/
structure Colour where
  /-- Red. -/
  r : GLfloat
  /-- Green. -/
  g : GLfloat
  /-- Blue. -/
  b : GLfloat
deriving DecidableEq

/-- The value `GL_NO_ERROR`. -/
def GL_NO_ERROR : ℕ := 0

/-- The value `GL_FRAMEBUFFER_COMPLETE`. -/
def GL_FRAMEBUFFER_COMPLETE : ℕ := 0x8CD5

/-! ## Variant A: memory pressure from many buffers -/

namespace VariantA

/-- The constant `sampleCount`. -/
def sampleCount : GLsizei := 4

/-- The constant `bufferSize`. -/
def bufferSize : GLsizei := 512

/-- The constant `bufferCount`. -/
def bufferCount : GLsizei := 215

/-- The `MultisampleBuffer` objects of the program: the one `staticBuffer`
points to and the ones the array `buffers` points to. -/
inductive BufferRef where
  | staticBuffer
  | buffers (i : ℕ)
deriving DecidableEq

/-- The calls that touch a buffer. -/
inductive Event where
  /-- `DrawQuad(target)`: clear the multisample target of the buffer to the
  current clear colour and draw a quad of colour `quad` into it. -/
  | drawQuad (target : BufferRef) (background : Colour) (quad : Colour)
  /-- `DrawBuffer(target, isStatic)`: resolve the buffer (`Commit`) and
  composite it into the left (`isStatic`) or right half of the window. -/
  | drawBuffer (target : BufferRef) (isStatic : Bool)
deriving DecidableEq

/-- The global variables, and the clear colour of the GL context. -/
structure State where
  /-- The tick counter `ts`. -/
  ts : GLfloat
  /-- The frame counter `lastBuffer`. -/
  lastBuffer : ℤ
  /-- The colour set by the last `glClearColor`. -/
  clearColor : Colour

/-- The function `DrawQuad`. -/
def DrawQuad (m : Libm) (σ : State) (buffer : BufferRef) : State × Event :=
  let ts := fadd32 σ.ts 1
  let r := fmul32 (fadd32 (m.sinf (fdiv32 ts 10)) 1) (1 / 2)
  let g := fmul32 (fadd32 (m.cosf (fdiv32 ts 100)) 1) (1 / 2)
  let b := fmul32 (fadd32 (m.sinf (fdiv32 ts 1000)) 1) (1 / 2)
  ({ σ with ts := ts }, Event.drawQuad buffer σ.clearColor ⟨r, g, b⟩)

/-- The function `DrawBuffer`: it calls `Commit` and composites; no global
variable changes. -/
def DrawBuffer (buffer : BufferRef) (isStatic : Bool) : Event :=
  Event.drawBuffer buffer isStatic

/-- The function `InitScene`: the buffers are created, and the static buffer
is drawn to between the two `glClearColor` calls. -/
def InitScene (m : Libm) : State × List Event :=
  let σ : State := { ts := 0, lastBuffer := 0, clearColor := ⟨0, 0, 0⟩ }
  let σ := { σ with clearColor := ⟨1, 0, 0⟩ }
  let (σ, e) := DrawQuad m σ BufferRef.staticBuffer
  let σ := { σ with clearColor := ⟨0, 0, 1⟩ }
  (σ, [e])

/-- The array access `buffers[bufferId]`, defined for indices within the array. -/
def buffersAt (bufferId : ℤ) : Option BufferRef :=
  if 0 ≤ bufferId ∧ bufferId < bufferCount then some (BufferRef.buffers bufferId.toNat)
  else none

/-- The increment `lastBuffer++` of an `int`, undefined on overflow. -/
def increment (x : ℤ) : Option ℤ :=
  if x + 1 < 2 ^ 31 then some (x + 1) else none

/-- The function `Render`: one tick. -/
def Render (m : Libm) (σ : State) : Option (State × List Event) :=
  let bufferId := Int.tmod σ.lastBuffer bufferCount
  match buffersAt bufferId with
  | none => none
  | some buffer =>
    let (σ, e1) := DrawQuad m σ buffer
    let e2 := DrawBuffer buffer false
    let e3 := DrawBuffer BufferRef.staticBuffer true
    match increment σ.lastBuffer with
    | none => none
    | some next => some ({ σ with lastBuffer := next }, [e1, e2, e3])

/-- The program up to and including the `n`-th call of `Render`: the state
reached and all events so far, those of `InitScene` first. -/
def run (m : Libm) : ℕ → Option (State × List Event)
  | 0 => some (InitScene m)
  | n + 1 =>
    match run m n with
    | none => none
    | some (σ, es) =>
      match Render m σ with
      | none => none
      | some (σ', es') => some (σ', es ++ es')

/-- The events of the call of `Render` that follows `n` earlier calls. -/
def frame (m : Libm) (n : ℕ) : Option (List Event) :=
  match run m n with
  | none => none
  | some (σ, _) => (Render m σ).map Prod.snd

/-- The buffers a list of events draws a quad into. -/
def drawTargets : List Event → List BufferRef
  | [] => []
  | Event.drawQuad target _ _ :: es => target :: drawTargets es
  | Event.drawBuffer _ _ :: es => drawTargets es

/-- The buffers a list of events resolves and composites. -/
def shownTargets : List Event → List (BufferRef × Bool)
  | [] => []
  | Event.drawQuad _ _ _ :: es => shownTargets es
  | Event.drawBuffer target isStatic :: es => (target, isStatic) :: shownTargets es

end VariantA

/-! ## Variant B: one buffer that grows -/

namespace VariantB

/-- The constant `sampleCount`. -/
def sampleCount : GLsizei := 4

/-- The constant `windowSize`. -/
def windowSize : GLsizei := 256

/-- The fields of the class `MultisampleBuffer` the program reads, and the
dimensions last passed to the allocation call of each of its three images. -/
structure MultisampleBuffer where
  /-- The field `width`. -/
  width : GLuint
  /-- The field `height`. -/
  height : GLuint
  /-- The field `maxSize`. -/
  maxSize : GLint
  /-- Dimensions of the last `glRenderbufferStorageMultisample` of `multisampleColorBuffer`. -/
  multisampleColorSize : GLsizei × GLsizei
  /-- Dimensions of the last `glRenderbufferStorageMultisample` of `multisampleDepthBuffer`. -/
  multisampleDepthSize : GLsizei × GLsizei
  /-- Dimensions of the last `glTexImage2D` of the resolve texture `colorBuffer`. -/
  colorSize : GLsizei × GLsizei
deriving DecidableEq

/-- The framebuffers of the program: the window (framebuffer 0) and the two
framebuffer objects of the buffer. -/
inductive Framebuffer where
  /-- The default framebuffer, name 0: what `glutSwapBuffers` shows. -/
  | window
  /-- The framebuffer object `multisampleFBO`. -/
  | multisampleFBO
  /-- The framebuffer object `fbo` of the resolve texture. -/
  | fbo
deriving DecidableEq

/-- The global variables, and the draw framebuffer binding of the GL context. -/
structure State where
  /-- The flag `hasError`. -/
  hasError : Bool
  /-- The flag `invalidFramebuffer`. -/
  invalidFramebuffer : Bool
  /-- The flag `maxSizeReached`. -/
  maxSizeReached : Bool
  /-- The tick counter `ts`. -/
  ts : GLfloat
  /-- The object `buffer` points to. -/
  buffer : MultisampleBuffer
  /-- The framebuffer bound for drawing by the last `glBindFramebuffer`. -/
  drawFramebuffer : Framebuffer
deriving DecidableEq

/-- What the driver answers during the constructor of `MultisampleBuffer`. -/
structure InitGL where
  /-- The value `glGetIntegerv(GL_MAX_RENDERBUFFER_SIZE)` stores. -/
  maxSize : GLint
  /-- The result of `glGetError` in `CheckGLError("MultisampleBuffer created")`. -/
  errCreated : ℕ

/-- What the driver answers during `Resize`. -/
structure ResizeGL where
  /-- The result of `glGetError` in `CheckGLError("multisampleColorBuffer resize")`. -/
  errColor : ℕ
  /-- The result of `glGetError` in `CheckGLError("multisampleDepthBuffer resize")`. -/
  errDepth : ℕ
  /-- The result of `glCheckFramebufferStatus` with `multisampleFBO` bound. -/
  statusMultisample : ℕ
  /-- The result of `glGetError` in `CheckGLError("colorBuffer resize")`. -/
  errTexture : ℕ
  /-- The result of `glCheckFramebufferStatus` with `fbo` bound. -/
  statusColor : ℕ

/-- What the driver answers during `Test`. -/
structure TestGL where
  /-- The result of `glGetError` in `CheckGLError("blit")`. -/
  errBlit : ℕ
  /-- The value of `pixel` after `glReadPixels(0, 0, ...)`. -/
  cornerPixel : ℕ
  /-- The value of `pixel` after `glReadPixels(width*0.5, height*0.5, ...)`. -/
  centerPixel : ℕ

/-- What the driver answers during one call of `Render`. -/
structure TickGL where
  /-- The answers during `Resize`. -/
  resize : ResizeGL
  /-- The answers during `Test`. -/
  test : TestGL
  /-- The result of `glGetError` in `CheckGLError("Render to Framebuffer")`. -/
  errDrawQuad : ℕ
  /-- The result of `glGetError` in `CheckGLError("blit")` of `DrawBuffer`. -/
  errCommit : ℕ
  /-- The result of `glGetError` in `CheckGLError("Render to Screen")`. -/
  errDrawBuffer : ℕ

/-- The calls of one frame. -/
inductive Event where
  /-- A `glClearColor(r, g, b, 1.0)` and `glClear` in `Render`; `target` is
  the framebuffer bound for drawing, the one the `glClear` clears. -/
  | clear (target : Framebuffer) (r g b : GLfloat)
  /-- The call `buffer->Resize(w, h)`. -/
  | resize (w h : GLsizei)
  /-- The call `buffer->Test()` and its result. -/
  | test (success : Bool)
  /-- The call `DrawQuad(buffer)` and the colour of the quad. -/
  | drawQuad (quad : Colour)
  /-- The call `DrawBuffer(buffer)`. -/
  | drawBuffer
deriving DecidableEq

/-- The function `CheckGLError`, `err` being the result of `glGetError`. -/
def CheckGLError (σ : State) (err : ℕ) : State :=
  if err ≠ GL_NO_ERROR then { σ with hasError := true } else σ

/-- The constructor `MultisampleBuffer(bufferWidth, bufferHeight)`, run with
the initial values of the global variables; it binds `fbo`, then
`multisampleFBO`, then framebuffer 0. -/
def MultisampleBuffer.new (gl : InitGL) (bufferWidth bufferHeight : GLsizei) : State :=
  let b : MultisampleBuffer :=
    { width := toGLuint bufferWidth
      height := toGLuint bufferHeight
      maxSize := gl.maxSize
      multisampleColorSize := (bufferWidth, bufferHeight)
      multisampleDepthSize := (bufferWidth, bufferHeight)
      colorSize := (bufferWidth, bufferHeight) }
  let σ : State :=
    { hasError := false, invalidFramebuffer := false, maxSizeReached := false, ts := 0,
      buffer := b, drawFramebuffer := Framebuffer.fbo }
  let σ := { σ with drawFramebuffer := Framebuffer.multisampleFBO }
  let σ := { σ with drawFramebuffer := Framebuffer.window }
  CheckGLError σ gl.errCreated

/-- The method `MultisampleBuffer::Resize` of the object `buffer` points to. -/
def MultisampleBuffer.Resize (σ : State) (gl : ResizeGL) (bufferWidth bufferHeight : GLsizei) :
    State :=
  let maxSize := σ.buffer.maxSize
  let (bufferWidth, σ) :=
    if bufferWidth > maxSize then (maxSize, { σ with maxSizeReached := true })
    else (bufferWidth, σ)
  let (bufferHeight, σ) :=
    if bufferHeight > maxSize then (maxSize, { σ with maxSizeReached := true })
    else (bufferHeight, σ)
  let σ := { σ with buffer := { σ.buffer with width := toGLuint bufferWidth } }
  let σ := { σ with buffer := { σ.buffer with height := toGLuint bufferHeight } }
  let σ := { σ with drawFramebuffer := Framebuffer.multisampleFBO }
  let σ := { σ with buffer :=
    { σ.buffer with multisampleColorSize := (bufferWidth, bufferHeight) } }
  let σ := CheckGLError σ gl.errColor
  let σ := { σ with buffer :=
    { σ.buffer with multisampleDepthSize := (bufferWidth, bufferHeight) } }
  let σ := CheckGLError σ gl.errDepth
  if gl.statusMultisample ≠ GL_FRAMEBUFFER_COMPLETE then
    { σ with hasError := true }
  else
    let σ := { σ with buffer := { σ.buffer with colorSize := (bufferWidth, bufferHeight) } }
    let σ := CheckGLError σ gl.errTexture
    let σ := { σ with drawFramebuffer := Framebuffer.fbo }
    if gl.statusColor ≠ GL_FRAMEBUFFER_COMPLETE then
      { σ with hasError := true }
    else σ

/-- The method `MultisampleBuffer::Commit`, `err` being the result of
`glGetError`: it blits with `fbo` bound for drawing and ends with framebuffer 0
bound. -/
def MultisampleBuffer.Commit (σ : State) (err : ℕ) : State :=
  let σ := { σ with drawFramebuffer := Framebuffer.fbo }
  let σ := CheckGLError σ err
  { σ with drawFramebuffer := Framebuffer.window }

/-- The method `MultisampleBuffer::Test`; it returns with `fbo` bound. -/
def MultisampleBuffer.Test (σ : State) (gl : TestGL) : State × Bool :=
  let success := true
  let σ := { σ with drawFramebuffer := Framebuffer.multisampleFBO }
  let σ := { σ with drawFramebuffer := Framebuffer.window }
  let σ := MultisampleBuffer.Commit σ gl.errBlit
  let σ := { σ with drawFramebuffer := Framebuffer.fbo }
  let pixel := gl.cornerPixel
  let success := if pixel ≠ 0xFFFFFFFF then false else success
  let pixel := gl.centerPixel
  let success := if pixel ≠ 0xFF000000 then false else success
  (σ, success)

/-- The function `InitScene`. -/
def InitScene (gl : InitGL) : State :=
  MultisampleBuffer.new gl windowSize windowSize

/-- The function `DrawQuad`, `err` being the result of `glGetError`: the quad
is drawn with `multisampleFBO` bound, then framebuffer 0 is bound. -/
def DrawQuad (m : Libm) (σ : State) (err : ℕ) : State × Event :=
  let ts := fadd32 σ.ts 1
  let σ := { σ with ts := ts }
  let r := fmul32 (fadd32 (m.sinf (fdiv32 ts 10)) 1) (1 / 2)
  let g := fmul32 (fadd32 (m.cosf (fdiv32 ts 100)) 1) (1 / 2)
  let b := fmul32 (fadd32 (m.sinf (fdiv32 ts 1000)) 1) (1 / 2)
  let σ := { σ with drawFramebuffer := Framebuffer.multisampleFBO }
  let σ := { σ with drawFramebuffer := Framebuffer.window }
  (CheckGLError σ err, Event.drawQuad ⟨r, g, b⟩)

/-- The function `DrawBuffer`: after `Commit` framebuffer 0 is bound, so the
textured quad goes to the window. -/
def DrawBuffer (σ : State) (errCommit errDrawBuffer : ℕ) : State × Event :=
  let σ := MultisampleBuffer.Commit σ errCommit
  (CheckGLError σ errDrawBuffer, Event.drawBuffer)

/-- The function `Render`: one tick.  `Render` binds no framebuffer itself:
its `glClear` clears whatever framebuffer the previous calls left bound. -/
def Render (m : Libm) (σ : State) (gl : TickGL) : Option (State × List Event) :=
  if σ.hasError then
    some (σ, [Event.clear σ.drawFramebuffer 0 1 0])
  else if σ.invalidFramebuffer then
    some (σ, [Event.clear σ.drawFramebuffer 1 0 0])
  else if σ.maxSizeReached then
    some (σ, [Event.clear σ.drawFramebuffer 0 0 1])
  else
    match scaleDimension σ.buffer.width, scaleDimension σ.buffer.height with
    | some w, some h =>
      let σ := MultisampleBuffer.Resize σ gl.resize w h
      if !σ.hasError then
        let (σ, success) := MultisampleBuffer.Test σ gl.test
        let σ := if !success then { σ with invalidFramebuffer := true } else σ
        let (σ, e1) := DrawQuad m σ gl.errDrawQuad
        let (σ, e2) := DrawBuffer σ gl.errCommit gl.errDrawBuffer
        some (σ, [Event.resize w h, Event.test success, e1, e2])
      else
        some (σ, [Event.resize w h])
    | _, _ => none

/-- The state after `n` calls of `Render`, the driver answering `gl k` during
call number `k` (counted from 0). -/
def run (m : Libm) (gl : ℕ → TickGL) (σ : State) : ℕ → Option State
  | 0 => some σ
  | n + 1 =>
    match run m gl σ n with
    | none => none
    | some s => (Render m s (gl n)).map Prod.fst

/-- The events of the call of `Render` that follows `n` earlier calls. -/
def frame (m : Libm) (gl : ℕ → TickGL) (σ : State) (n : ℕ) : Option (List Event) :=
  match run m gl σ n with
  | none => none
  | some s => (Render m s (gl n)).map Prod.snd

/-- Whether a list of events contains a call of `Resize`. -/
def hasResize : List Event → Bool
  | [] => false
  | Event.resize _ _ :: _ => true
  | _ :: es => hasResize es

/-- A driver that reports no error, complete framebuffers and the expected
pixels of the self test. -/
def TickGL.good (gl : TickGL) : Prop :=
  gl.resize.errColor = GL_NO_ERROR ∧ gl.resize.errDepth = GL_NO_ERROR ∧
  gl.resize.statusMultisample = GL_FRAMEBUFFER_COMPLETE ∧
  gl.resize.errTexture = GL_NO_ERROR ∧ gl.resize.statusColor = GL_FRAMEBUFFER_COMPLETE ∧
  gl.test.errBlit = GL_NO_ERROR ∧ gl.test.cornerPixel = 0xFFFFFFFF ∧
  gl.test.centerPixel = 0xFF000000 ∧
  gl.errDrawQuad = GL_NO_ERROR ∧ gl.errCommit = GL_NO_ERROR ∧ gl.errDrawBuffer = GL_NO_ERROR

instance (gl : TickGL) : Decidable gl.good := by
  unfold TickGL.good
  infer_instance

/-- The answers of a driver whose allocation of the multisample colour storage
fails with `GL_OUT_OF_MEMORY` (`0x0505`) and that reports nothing else. -/
def TickGL.outOfMemory : TickGL where
  resize := ⟨0x0505, 0, 0x8CD5, 0, 0x8CD5⟩
  test := ⟨0, 0xFFFFFFFF, 0xFF000000⟩
  errDrawQuad := 0
  errCommit := 0
  errDrawBuffer := 0

/-- The answers of a driver that reports nothing wrong. -/
def TickGL.ok : TickGL where
  resize := ⟨0, 0, 0x8CD5, 0, 0x8CD5⟩
  test := ⟨0, 0xFFFFFFFF, 0xFF000000⟩
  errDrawQuad := 0
  errCommit := 0
  errDrawBuffer := 0

end VariantB

/-! ## Rounding -/

theorem rne_sub_le (x : ℚ) : |(rne x : ℚ) - x| ≤ 1 / 2 := by
  have h1 := Int.floor_le x
  have h2 := Int.lt_floor_add_one x
  unfold rne
  simp only
  split_ifs with a b c
  · rw [abs_le]; constructor <;> linarith
  · push_cast; rw [abs_le]; constructor <;> linarith
  · rw [abs_le]; constructor <;> linarith
  · push_cast; rw [abs_le]; constructor <;> linarith

theorem rne_le_of_le {x : ℚ} {n : ℤ} (h : x ≤ n) : rne x ≤ n := by
  by_contra hc
  have h1 : n + 1 ≤ rne x := by omega
  have h2 : ((n : ℚ) + 1) ≤ (rne x : ℚ) := by exact_mod_cast h1
  have h3 := (abs_le.mp (rne_sub_le x)).2
  linarith

theorem le_rne_of_le {x : ℚ} {n : ℤ} (h : (n : ℚ) ≤ x) : n ≤ rne x := by
  by_contra hc
  have h1 : rne x + 1 ≤ n := by omega
  have h2 : ((rne x : ℚ) + 1) ≤ (n : ℚ) := by exact_mod_cast h1
  have h3 := (abs_le.mp (rne_sub_le x)).1
  linarith

theorem rne_eq_of_near {x : ℚ} {n : ℤ} (h : |(n : ℚ) - x| < 1 / 2) : rne x = n := by
  have h3 := abs_le.mp (rne_sub_le x)
  have h4 := abs_lt.mp h
  have h5 : ((rne x : ℚ)) < (n : ℚ) + 1 := by linarith [h3.2, h4.1]
  have h6 : ((n : ℚ)) < (rne x : ℚ) + 1 := by linarith [h3.1, h4.2]
  have h7 : rne x < n + 1 := by exact_mod_cast h5
  have h8 : n < rne x + 1 := by exact_mod_cast h6
  omega

theorem two_zpow_pos (u : ℤ) : (0 : ℚ) < 2 ^ u := zpow_pos (by norm_num) u

theorem two_zpow_split {u j : ℤ} (h : u ≤ j) :
    ∃ t : ℕ, (2 : ℚ) ^ j = ((2 ^ t : ℤ) : ℚ) * 2 ^ u := by
  refine ⟨(j - u).toNat, ?_⟩
  have hj : j = ((j - u).toNat : ℤ) + u := by omega
  conv_lhs => rw [hj]
  rw [zpow_add₀ (by norm_num : (2 : ℚ) ≠ 0), zpow_natCast]
  push_cast
  ring

theorem roundBin_le_of_le (p : ℕ) (emin : ℤ) {x : ℚ} {n j : ℤ}
    (hu : ulpExp p emin x ≤ j) (h : x ≤ n * 2 ^ j) : roundBin p emin x ≤ n * 2 ^ j := by
  obtain ⟨t, ht⟩ := two_zpow_split hu
  have hpos := two_zpow_pos (ulpExp p emin x)
  have h1 : x / 2 ^ ulpExp p emin x ≤ ((n * 2 ^ t : ℤ) : ℚ) := by
    rw [div_le_iff₀ hpos]
    push_cast
    rw [ht] at h
    push_cast at h
    linarith
  have h2 := rne_le_of_le h1
  have h3 : (rne (x / 2 ^ ulpExp p emin x) : ℚ) ≤ ((n * 2 ^ t : ℤ) : ℚ) := by exact_mod_cast h2
  unfold roundBin
  rw [ht]
  push_cast at h3 ⊢
  nlinarith

theorem le_roundBin_of_le (p : ℕ) (emin : ℤ) {x : ℚ} {n j : ℤ}
    (hu : ulpExp p emin x ≤ j) (h : (n : ℚ) * 2 ^ j ≤ x) : (n : ℚ) * 2 ^ j ≤ roundBin p emin x := by
  obtain ⟨t, ht⟩ := two_zpow_split hu
  have hpos := two_zpow_pos (ulpExp p emin x)
  have h1 : ((n * 2 ^ t : ℤ) : ℚ) ≤ x / 2 ^ ulpExp p emin x := by
    rw [le_div_iff₀ hpos]
    push_cast
    rw [ht] at h
    push_cast at h
    linarith
  have h2 := le_rne_of_le h1
  have h3 : ((n * 2 ^ t : ℤ) : ℚ) ≤ (rne (x / 2 ^ ulpExp p emin x) : ℚ) := by exact_mod_cast h2
  unfold roundBin
  rw [ht]
  push_cast at h3 ⊢
  nlinarith

theorem roundBin_eq_of_near (p : ℕ) (emin : ℤ) {x : ℚ} {n j : ℤ}
    (hu : ulpExp p emin x ≤ j) (h : |(n : ℚ) * 2 ^ j - x| < 2 ^ ulpExp p emin x / 2) :
    roundBin p emin x = n * 2 ^ j := by
  obtain ⟨t, ht⟩ := two_zpow_split hu
  have hpos := two_zpow_pos (ulpExp p emin x)
  have h1 : |((n * 2 ^ t : ℤ) : ℚ) - x / 2 ^ ulpExp p emin x| < 1 / 2 := by
    rw [ht] at h
    generalize (2 : ℚ) ^ ulpExp p emin x = U at h hpos ⊢
    have hy : x = x / U * U := by field_simp
    generalize x / U = y at hy ⊢
    rw [hy] at h
    rw [abs_lt] at h ⊢
    push_cast at h ⊢
    constructor
    · refine lt_of_mul_lt_mul_right ?_ (le_of_lt hpos)
      linarith [h.1]
    · refine lt_of_mul_lt_mul_right ?_ (le_of_lt hpos)
      linarith [h.2]
  have h2 := rne_eq_of_near h1
  unfold roundBin
  rw [h2, ht]
  push_cast
  ring

theorem ulpExp_le (p : ℕ) (emin : ℤ) {k : ℤ} {x : ℚ} (hk : 0 ≤ k) (he : emin ≤ k)
    (hx : |x| < 2 ^ (k + 1)) : ulpExp p emin x ≤ k - (p - 1) := by
  unfold ulpExp
  have hlog : Int.log 2 |x| ≤ k := by
    rcases le_or_lt |x| 0 with h0 | h0
    · rw [Int.log_of_right_le_zero 2 h0]; exact hk
    · have := (Int.lt_zpow_iff_log_lt (R := ℚ) (b := 2) (by norm_num) h0).mp (by exact_mod_cast hx)
      omega
  have := max_le hlog he
  omega

theorem ulpExp_eq (p : ℕ) (emin : ℤ) {k : ℤ} {x : ℚ} (he : emin ≤ k)
    (h1 : 2 ^ k ≤ |x|) (h2 : |x| < 2 ^ (k + 1)) : ulpExp p emin x = k - (p - 1) := by
  unfold ulpExp
  have h0 : 0 < |x| := lt_of_lt_of_le (two_zpow_pos k) h1
  have ha : Int.log 2 |x| < k + 1 :=
    (Int.lt_zpow_iff_log_lt (R := ℚ) (b := 2) (by norm_num) h0).mp (by exact_mod_cast h2)
  have hb : k ≤ Int.log 2 |x| :=
    (Int.zpow_le_iff_le_log (R := ℚ) (b := 2) (by norm_num) h0).mp (by exact_mod_cast h1)
  have : Int.log 2 |x| = k := by omega
  rw [this, max_eq_left he]

theorem roundF64_natCast {n : ℕ} (hn : n < 2 ^ 53) : roundF64 (n : ℚ) = n := by
  have hu : ulpExp 53 (-1022) (n : ℚ) ≤ 0 := by
    have h := ulpExp_le 53 (-1022) (k := 52) (x := (n : ℚ)) (by norm_num) (by norm_num)
      (by
        rw [abs_of_nonneg (by positivity)]
        norm_num
        exact_mod_cast hn)
    simpa using h
  have h := roundBin_eq_of_near 53 (-1022) (x := (n : ℚ)) (n := (n : ℤ)) (j := 0) hu
    (by simpa using two_zpow_pos _)
  simpa [roundF64] using h

theorem d1_2_eq : d1_2 = 5404319552844595 / 4503599627370496 := by
  have hu : ulpExp 53 (-1022) (6 / 5 : ℚ) = -52 := by
    have h := ulpExp_eq 53 (-1022) (k := 0) (x := (6 / 5 : ℚ)) (by norm_num)
      (by norm_num [abs_of_nonneg]) (by norm_num [abs_of_nonneg])
    simpa using h
  have h := roundBin_eq_of_near 53 (-1022) (x := (6 / 5 : ℚ)) (n := 5404319552844595) (j := -52)
    (by rw [hu])
    (by
      rw [hu, abs_lt]
      norm_num [zpow_neg])
  unfold d1_2 roundF64
  rw [h]
  norm_num [zpow_neg]

theorem fmul64_scale_zero : fmul64 (uintToDouble 0) d1_2 = 0 := by
  unfold fmul64 uintToDouble
  rw [roundF64_natCast (by norm_num)]
  have h := roundBin_eq_of_near 53 (-1022) (x := (0 : ℚ)) (n := 0)
    (j := ulpExp 53 (-1022) 0) le_rfl (by simpa using two_zpow_pos _)
  simpa [roundF64] using h

theorem fmul64_scale_bounds {w : ℕ} (hw : w < 2 ^ 32) :
    ((w * 6 / 5 : ℕ) : ℚ) ≤ fmul64 (uintToDouble w) d1_2 ∧
      fmul64 (uintToDouble w) d1_2 < ((w * 6 / 5 : ℕ) : ℚ) + 1 := by
  rcases Nat.eq_zero_or_pos w with h0 | hpos
  · subst h0
    rw [fmul64_scale_zero]
    norm_num
  have hw53 : w < 2 ^ 53 := lt_of_lt_of_le hw (by norm_num)
  unfold fmul64 uintToDouble
  rw [roundF64_natCast hw53, d1_2_eq]
  unfold roundF64
  set x : ℚ := (w : ℚ) * (5404319552844595 / 4503599627370496) with hx
  have hwq : (1 : ℚ) ≤ w := by exact_mod_cast hpos
  have hwq2 : (w : ℚ) < 4294967296 := by exact_mod_cast hw
  have hx1 : (1 : ℚ) ≤ x := by rw [hx]; linarith
  have hx2 : x < 2 ^ 33 := by rw [hx]; norm_num; linarith
  have hxpos : (0 : ℚ) < x := by linarith
  have habs : |x| = x := abs_of_pos hxpos
  -- the binade of `x`
  obtain ⟨k, hk0, hk32, hklo, hkhi⟩ :
      ∃ k : ℤ, 0 ≤ k ∧ k ≤ 32 ∧ (2 : ℚ) ^ k ≤ x ∧ x < 2 ^ (k + 1) := by
    refine ⟨Int.log 2 x, ?_, ?_, ?_, ?_⟩
    · exact (Int.zpow_le_iff_le_log (R := ℚ) (b := 2) (by norm_num) hxpos).mp (by simpa using hx1)
    · have := (Int.lt_zpow_iff_log_lt (R := ℚ) (b := 2) (x := 33) (by norm_num) hxpos).mp
        (by exact_mod_cast hx2)
      omega
    · exact_mod_cast Int.zpow_log_le_self (R := ℚ) (b := 2) (by norm_num) hxpos
    · exact_mod_cast Int.lt_zpow_succ_log_self (R := ℚ) (b := 2) (by norm_num) x
  have hu : ulpExp 53 (-1022) x = k - 52 := by
    have h := ulpExp_eq 53 (-1022) (k := k) (x := x) (by omega)
      (by rw [habs]; exact hklo) (by rw [habs]; exact hkhi)
    simpa using h
  have hP : (2 : ℚ) ^ (k - 52) = 2 ^ k / 4503599627370496 := by
    rw [zpow_sub₀ (by norm_num : (2 : ℚ) ≠ 0)]
    norm_num
  have hP2 : (2 : ℚ) ^ (k + 1) = 2 ^ k * 2 := by
    rw [zpow_add_one₀ (by norm_num : (2 : ℚ) ≠ 0)]
  -- split `w` modulo 5
  obtain ⟨t, r, hr, hwt⟩ : ∃ t r : ℕ, r < 5 ∧ w = 5 * t + r :=
    ⟨w / 5, w % 5, Nat.mod_lt _ (by norm_num), by omega⟩
  have hK : w * 6 / 5 = 6 * t + r := by omega
  have hwtq : (w : ℚ) = 5 * t + r := by exact_mod_cast hwt
  rw [hK]
  rcases Nat.eq_zero_or_pos r with hr0 | hrpos
  · -- a multiple of five: the product rounds to the integer `6 * t`
    subst hr0
    have htq : (1 : ℚ) ≤ t := by
      have : 1 ≤ t := by omega
      exact_mod_cast this
    have hxt : x = 6 * t - t / 4503599627370496 := by
      rw [hx, hwtq]; push_cast; ring
    have h := roundBin_eq_of_near 53 (-1022) (x := x) (n := ((6 * t + 0 : ℕ) : ℤ)) (j := 0)
      (by rw [hu]; omega)
      (by
        rw [hu, hP, abs_lt]
        rw [hP2] at hkhi
        push_cast
        constructor <;> linarith)
    rw [h]
    push_cast
    constructor <;> linarith
  · have hrq1 : (1 : ℚ) ≤ r := by exact_mod_cast hrpos
    have hrq4 : (r : ℚ) ≤ 4 := by
      have : r ≤ 4 := by omega
      exact_mod_cast this
    have htq0 : (0 : ℚ) ≤ t := by positivity
    have hxt : x = (5 * t + r) * (5404319552844595 / 4503599627370496) := by
      rw [hx, hwtq]
    constructor
    · have h := le_roundBin_of_le 53 (-1022) (x := x) (n := ((6 * t + r : ℕ) : ℤ)) (j := 0)
        (by rw [hu]; omega)
        (by push_cast; rw [hxt]; linarith)
      simpa using h
    · have h := roundBin_le_of_le 53 (-1022) (x := x)
        (n := ((6 * t + r : ℕ) : ℤ) * 1048576 + 1048575) (j := -20)
        (by rw [hu]; omega)
        (by push_cast; rw [hxt]; norm_num [zpow_neg]; linarith)
      have h2 : ((((6 * t + r : ℕ) : ℤ) * 1048576 + 1048575 : ℤ) : ℚ) * 2 ^ (-20 : ℤ)
          < ((6 * t + r : ℕ) : ℚ) + 1 := by
        push_cast; norm_num [zpow_neg]; linarith
      exact lt_of_le_of_lt h h2

theorem scaleDimension_eq {w : ℕ} (hw : w < 2 ^ 32) :
    scaleDimension w = if w * 6 / 5 < 2 ^ 31 then some ((w * 6 / 5 : ℕ) : ℤ) else none := by
  obtain ⟨h1, h2⟩ := fmul64_scale_bounds hw
  have hnn : (0 : ℚ) ≤ fmul64 (uintToDouble w) d1_2 := le_trans (by positivity) h1
  have hfloor : ⌊fmul64 (uintToDouble w) d1_2⌋ = ((w * 6 / 5 : ℕ) : ℤ) := by
    rw [Int.floor_eq_iff]
    exact ⟨by exact_mod_cast h1, by exact_mod_cast h2⟩
  unfold scaleDimension doubleToGLsizei truncQ
  simp only [hnn, if_true, hfloor]
  by_cases hlt : w * 6 / 5 < 2 ^ 31
  · have : ((w * 6 / 5 : ℕ) : ℤ) < 2 ^ 31 := by exact_mod_cast hlt
    have h0 : (-2 ^ 31 : ℤ) ≤ ((w * 6 / 5 : ℕ) : ℤ) := by
      have : (0 : ℤ) ≤ ((w * 6 / 5 : ℕ) : ℤ) := by positivity
      linarith
    rw [if_pos ⟨h0, this⟩, if_pos hlt]
  · have : ¬ ((w * 6 / 5 : ℕ) : ℤ) < 2 ^ 31 := by exact_mod_cast hlt
    rw [if_neg (fun h => this h.2), if_neg hlt]

/-! ## Variant B: the operations -/

namespace VariantB

theorem CheckGLError_eq (σ : State) (err : ℕ) :
    CheckGLError σ err =
      { σ with hasError := σ.hasError || decide (err ≠ GL_NO_ERROR) } := by
  unfold CheckGLError
  by_cases h : err = GL_NO_ERROR <;> simp [h]

theorem Resize_buffer (σ : State) (gl : ResizeGL) (w h : ℤ) :
    (MultisampleBuffer.Resize σ gl w h).buffer =
      { width := toGLuint (min w σ.buffer.maxSize)
        height := toGLuint (min h σ.buffer.maxSize)
        maxSize := σ.buffer.maxSize
        multisampleColorSize := (min w σ.buffer.maxSize, min h σ.buffer.maxSize)
        multisampleDepthSize := (min w σ.buffer.maxSize, min h σ.buffer.maxSize)
        colorSize :=
          if gl.statusMultisample = GL_FRAMEBUFFER_COMPLETE then
            (min w σ.buffer.maxSize, min h σ.buffer.maxSize)
          else σ.buffer.colorSize } := by
  have hmin : ∀ x : ℤ, (if x > σ.buffer.maxSize then σ.buffer.maxSize else x)
      = min x σ.buffer.maxSize := by
    intro x
    by_cases hx : x > σ.buffer.maxSize
    · rw [if_pos hx, min_eq_right (le_of_lt hx)]
    · rw [if_neg hx, min_eq_left (not_lt.mp hx)]
  unfold MultisampleBuffer.Resize
  simp only [CheckGLError_eq]
  by_cases h1 : w > σ.buffer.maxSize <;> by_cases h2 : h > σ.buffer.maxSize <;>
    by_cases h3 : gl.statusMultisample = GL_FRAMEBUFFER_COMPLETE <;>
    by_cases h4 : gl.statusColor = GL_FRAMEBUFFER_COMPLETE <;>
    simp [h1, h2, h3, h4, ← hmin]

theorem Resize_maxSizeReached (σ : State) (gl : ResizeGL) (w h : ℤ) :
    (MultisampleBuffer.Resize σ gl w h).maxSizeReached =
      (σ.maxSizeReached || decide (w > σ.buffer.maxSize) || decide (h > σ.buffer.maxSize)) := by
  unfold MultisampleBuffer.Resize
  simp only [CheckGLError_eq]
  by_cases h1 : w > σ.buffer.maxSize <;> by_cases h2 : h > σ.buffer.maxSize <;>
    by_cases h3 : gl.statusMultisample = GL_FRAMEBUFFER_COMPLETE <;>
    by_cases h4 : gl.statusColor = GL_FRAMEBUFFER_COMPLETE <;>
    simp [h1, h2, h3, h4]

theorem Resize_invalidFramebuffer (σ : State) (gl : ResizeGL) (w h : ℤ) :
    (MultisampleBuffer.Resize σ gl w h).invalidFramebuffer = σ.invalidFramebuffer := by
  unfold MultisampleBuffer.Resize
  simp only [CheckGLError_eq]
  by_cases h1 : w > σ.buffer.maxSize <;> by_cases h2 : h > σ.buffer.maxSize <;>
    by_cases h3 : gl.statusMultisample = GL_FRAMEBUFFER_COMPLETE <;>
    by_cases h4 : gl.statusColor = GL_FRAMEBUFFER_COMPLETE <;>
    simp [h1, h2, h3, h4]

theorem Resize_ts (σ : State) (gl : ResizeGL) (w h : ℤ) :
    (MultisampleBuffer.Resize σ gl w h).ts = σ.ts := by
  unfold MultisampleBuffer.Resize
  simp only [CheckGLError_eq]
  by_cases h1 : w > σ.buffer.maxSize <;> by_cases h2 : h > σ.buffer.maxSize <;>
    by_cases h3 : gl.statusMultisample = GL_FRAMEBUFFER_COMPLETE <;>
    by_cases h4 : gl.statusColor = GL_FRAMEBUFFER_COMPLETE <;>
    simp [h1, h2, h3, h4]

theorem Resize_drawFramebuffer (σ : State) (gl : ResizeGL) (w h : ℤ) :
    (MultisampleBuffer.Resize σ gl w h).drawFramebuffer =
      (if gl.statusMultisample = GL_FRAMEBUFFER_COMPLETE then Framebuffer.fbo
        else Framebuffer.multisampleFBO) := by
  unfold MultisampleBuffer.Resize
  simp only [CheckGLError_eq]
  by_cases h1 : w > σ.buffer.maxSize <;> by_cases h2 : h > σ.buffer.maxSize <;>
    by_cases h3 : gl.statusMultisample = GL_FRAMEBUFFER_COMPLETE <;>
    by_cases h4 : gl.statusColor = GL_FRAMEBUFFER_COMPLETE <;>
    simp [h1, h2, h3, h4]

theorem Resize_hasError (σ : State) (gl : ResizeGL) (w h : ℤ) :
    (MultisampleBuffer.Resize σ gl w h).hasError =
      (σ.hasError || decide (gl.errColor ≠ GL_NO_ERROR) || decide (gl.errDepth ≠ GL_NO_ERROR) ||
        decide (gl.statusMultisample ≠ GL_FRAMEBUFFER_COMPLETE) ||
        decide (gl.errTexture ≠ GL_NO_ERROR) ||
        decide (gl.statusColor ≠ GL_FRAMEBUFFER_COMPLETE)) := by
  unfold MultisampleBuffer.Resize
  simp only [CheckGLError_eq]
  by_cases h1 : w > σ.buffer.maxSize <;> by_cases h2 : h > σ.buffer.maxSize <;>
    by_cases h3 : gl.statusMultisample = GL_FRAMEBUFFER_COMPLETE <;>
    by_cases h4 : gl.statusColor = GL_FRAMEBUFFER_COMPLETE <;>
    simp [h1, h2, h3, h4]

end VariantB

namespace VariantB

theorem Render_of_flag (m : Libm) (σ : State) (gl : TickGL)
    (h : σ.hasError = true ∨ σ.invalidFramebuffer = true ∨ σ.maxSizeReached = true) :
    Render m σ gl = some (σ,
      [if σ.hasError then Event.clear σ.drawFramebuffer 0 1 0
        else if σ.invalidFramebuffer then Event.clear σ.drawFramebuffer 1 0 0
        else Event.clear σ.drawFramebuffer 0 0 1]) := by
  unfold Render
  rcases hE : σ.hasError with _ | _ <;> rcases hI : σ.invalidFramebuffer with _ | _ <;>
    rcases hM : σ.maxSizeReached with _ | _ <;> simp_all

theorem Render_of_noFlag (m : Libm) (σ : State) (gl : TickGL) {w h : ℤ}
    (hE : σ.hasError = false) (hI : σ.invalidFramebuffer = false)
    (hM : σ.maxSizeReached = false)
    (hw : scaleDimension σ.buffer.width = some w)
    (hh : scaleDimension σ.buffer.height = some h) :
    ∃ σ' es, Render m σ gl = some (σ', Event.resize w h :: es) ∧
      σ'.buffer = (MultisampleBuffer.Resize σ gl.resize w h).buffer ∧
      σ'.maxSizeReached = (MultisampleBuffer.Resize σ gl.resize w h).maxSizeReached ∧
      (gl.good → σ'.hasError = false ∧ σ'.invalidFramebuffer = false) ∧
      ((MultisampleBuffer.Resize σ gl.resize w h).hasError = false →
        σ'.drawFramebuffer = Framebuffer.window) ∧
      ((MultisampleBuffer.Resize σ gl.resize w h).hasError = true →
        σ' = MultisampleBuffer.Resize σ gl.resize w h ∧ es = []) := by
  unfold Render
  simp only [hE, hI, hM, hw, hh, Bool.false_eq_true, if_false]
  rcases hR : (MultisampleBuffer.Resize σ gl.resize w h).hasError with _ | _
  · refine ⟨_, _, rfl, ?_, ?_, ?_, ?_, ?_⟩
    · simp [MultisampleBuffer.Test, MultisampleBuffer.Commit, DrawQuad, DrawBuffer,
        CheckGLError_eq]
      split_ifs <;> rfl
    · simp [MultisampleBuffer.Test, MultisampleBuffer.Commit, DrawQuad, DrawBuffer,
        CheckGLError_eq]
      split_ifs <;> rfl
    · intro hg
      obtain ⟨g1, g2, g3, g4, g5, g6, g7, g8, g9, g10, g11⟩ := hg
      simp [MultisampleBuffer.Test, MultisampleBuffer.Commit, DrawQuad, DrawBuffer,
        CheckGLError_eq, g6, g7, g8, g9, g10, g11, hR, Resize_invalidFramebuffer, hI]
    · intro _
      simp [MultisampleBuffer.Test, MultisampleBuffer.Commit, DrawQuad, DrawBuffer,
        CheckGLError_eq]
    · intro hc
      exact absurd hc (by simp)
  · refine ⟨_, _, rfl, rfl, rfl, ?_, ?_, ?_⟩
    · intro hg
      obtain ⟨g1, g2, g3, g4, g5, _⟩ := hg
      rw [Resize_hasError] at hR
      simp [g1, g2, g3, g4, g5, hE] at hR
    · intro hc
      exact absurd hc (by simp)
    · intro _
      exact ⟨rfl, rfl⟩

end VariantB

/-! ## Colours -/

theorem roundF32_nonneg {x : ℚ} (h : 0 ≤ x) : 0 ≤ roundF32 x := by
  have := le_roundBin_of_le 24 (-126) (x := x) (n := 0) (j := ulpExp 24 (-126) x) le_rfl
    (by simpa using h)
  simpa [roundF32] using this

theorem roundF32_le_one {x : ℚ} (h0 : 0 ≤ x) (h : x ≤ 1) : roundF32 x ≤ 1 := by
  have hu : ulpExp 24 (-126) x ≤ 0 := by
    have := ulpExp_le 24 (-126) (k := 0) (x := x) le_rfl (by norm_num)
      (by rw [abs_of_nonneg h0]; norm_num; linarith)
    simp only [Nat.cast_ofNat] at this
    omega
  have := roundBin_le_of_le 24 (-126) (x := x) (n := 1) (j := 0) hu (by simpa using h)
  simpa [roundF32] using this

theorem roundF32_le_two {x : ℚ} (h0 : 0 ≤ x) (h : x ≤ 2) : roundF32 x ≤ 2 := by
  have hu : ulpExp 24 (-126) x ≤ 0 := by
    have := ulpExp_le 24 (-126) (k := 1) (x := x) (by norm_num) (by norm_num)
      (by rw [abs_of_nonneg h0]; norm_num; linarith)
    simp only [Nat.cast_ofNat] at this
    omega
  have := roundBin_le_of_le 24 (-126) (x := x) (n := 2) (j := 0) hu (by simpa using h)
  simpa [roundF32] using this

theorem channel_bounds {s : ℚ} (h1 : -1 ≤ s) (h2 : s ≤ 1) :
    0 ≤ fmul32 (fadd32 s 1) (1 / 2) ∧ fmul32 (fadd32 s 1) (1 / 2) ≤ 1 := by
  have ha0 : 0 ≤ fadd32 s 1 := roundF32_nonneg (by linarith)
  have ha2 : fadd32 s 1 ≤ 2 := roundF32_le_two (by linarith) (by linarith)
  exact ⟨roundF32_nonneg (by linarith), roundF32_le_one (by linarith) (by linarith)⟩

theorem Libm.crude_inRange : Libm.crude.InRange := by
  intro x
  refine ⟨⟨le_max_left _ _, max_le (by norm_num) (min_le_left _ _)⟩,
    ⟨le_max_left _ _, max_le (by norm_num) (min_le_left _ _)⟩⟩

/-- Claim C8. For every value of the tick counter (and every buffer and driver
answer), the red, green and blue channel of the quad drawn by `DrawQuad` lie
in `[0, 1]`, in both variants, given that `sinf` and `cosf` return values in
`[-1, 1]`. -/
theorem colour_channels_in_unit_interval (m : Libm) (hm : m.InRange) :
    (∀ (σ : VariantA.State) (buffer : VariantA.BufferRef), ∃ c : Colour,
      (VariantA.DrawQuad m σ buffer).2 = VariantA.Event.drawQuad buffer σ.clearColor c ∧
        (0 ≤ c.r ∧ c.r ≤ 1) ∧ (0 ≤ c.g ∧ c.g ≤ 1) ∧ (0 ≤ c.b ∧ c.b ≤ 1)) ∧
      (∀ (σ : VariantB.State) (err : ℕ), ∃ c : Colour,
        (VariantB.DrawQuad m σ err).2 = VariantB.Event.drawQuad c ∧
          (0 ≤ c.r ∧ c.r ≤ 1) ∧ (0 ≤ c.g ∧ c.g ≤ 1) ∧ (0 ≤ c.b ∧ c.b ≤ 1)) := by
  constructor
  · intro σ buffer
    exact ⟨_, rfl, channel_bounds (hm _).1.1 (hm _).1.2, channel_bounds (hm _).2.1 (hm _).2.2,
      channel_bounds (hm _).1.1 (hm _).1.2⟩
  · intro σ err
    exact ⟨_, rfl, channel_bounds (hm _).1.1 (hm _).1.2, channel_bounds (hm _).2.1 (hm _).2.2,
      channel_bounds (hm _).1.1 (hm _).1.2⟩

/-- Claim C8 for the crude C library. -/
theorem colour_channels_in_unit_interval_witness :
    Libm.crude.InRange ∧
      ((∀ (σ : VariantA.State) (buffer : VariantA.BufferRef), ∃ c : Colour,
        (VariantA.DrawQuad Libm.crude σ buffer).2
            = VariantA.Event.drawQuad buffer σ.clearColor c ∧
          (0 ≤ c.r ∧ c.r ≤ 1) ∧ (0 ≤ c.g ∧ c.g ≤ 1) ∧ (0 ≤ c.b ∧ c.b ≤ 1)) ∧
        (∀ (σ : VariantB.State) (err : ℕ), ∃ c : Colour,
          (VariantB.DrawQuad Libm.crude σ err).2 = VariantB.Event.drawQuad c ∧
            (0 ≤ c.r ∧ c.r ≤ 1) ∧ (0 ≤ c.g ∧ c.g ≤ 1) ∧ (0 ≤ c.b ∧ c.b ≤ 1))) :=
  ⟨Libm.crude_inRange, colour_channels_in_unit_interval Libm.crude Libm.crude_inRange⟩

/-! ## Variant A: the render loop -/

namespace VariantA

theorem buffersAt_tmod (n : ℕ) :
    buffersAt (Int.tmod (n : ℤ) bufferCount) = some (BufferRef.buffers (n % 215)) := by
  have h : Int.tmod (n : ℤ) bufferCount = ((n % 215 : ℕ) : ℤ) := by
    rw [Int.ofNat_tmod]; rfl
  have hlt : n % 215 < 215 := Nat.mod_lt _ (by norm_num)
  rw [h]
  unfold buffersAt bufferCount
  rw [if_pos ⟨by positivity, by exact_mod_cast hlt⟩, Int.toNat_natCast]

theorem Render_eq (m : Libm) (σ : State) (n : ℕ) (hl : σ.lastBuffer = n)
    (hn : n + 1 < 2 ^ 31) :
    Render m σ = some
      ({ (DrawQuad m σ (BufferRef.buffers (n % 215))).1 with lastBuffer := ((n + 1 : ℕ) : ℤ) },
        [(DrawQuad m σ (BufferRef.buffers (n % 215))).2,
          Event.drawBuffer (BufferRef.buffers (n % 215)) false,
          Event.drawBuffer BufferRef.staticBuffer true]) := by
  have hinc : increment (n : ℤ) = some (((n + 1 : ℕ) : ℤ)) := by
    unfold increment
    have : ((n : ℤ)) + 1 < 2 ^ 31 := by exact_mod_cast hn
    rw [if_pos this]
    push_cast
    rfl
  unfold Render
  simp only [hl, buffersAt_tmod]
  simp only [DrawQuad, DrawBuffer, hl, hinc]

theorem Render_drawTargets (m : Libm) (σ σ' : State) (es : List Event)
    (h : Render m σ = some (σ', es)) :
    ∃ i, i < 215 ∧ drawTargets es = [BufferRef.buffers i] ∧
      shownTargets es = [(BufferRef.buffers i, false), (BufferRef.staticBuffer, true)] := by
  unfold Render at h
  generalize Int.tmod σ.lastBuffer bufferCount = j at h
  rcases hb : buffersAt j with _ | b
  · simp [hb] at h
  · simp only [hb] at h
    rcases hi : increment (DrawQuad m σ b).1.lastBuffer with _ | l
    · simp [hi] at h
    · simp only [hi, Option.some.injEq, Prod.mk.injEq] at h
      obtain ⟨-, rfl⟩ := h
      unfold buffersAt at hb
      split_ifs at hb with hc
      simp only [Option.some.injEq] at hb
      subst hb
      refine ⟨_, ?_, rfl, rfl⟩
      unfold bufferCount at hc
      omega

theorem run_lastBuffer (m : Libm) :
    ∀ n : ℕ, n < 2 ^ 31 → ∃ σ es, run m n = some (σ, es) ∧ σ.lastBuffer = n := by
  intro n
  induction n with
  | zero => intro _; exact ⟨_, _, rfl, rfl⟩
  | succ n ih =>
    intro hn
    obtain ⟨σ, es, hrun, hl⟩ := ih (by omega)
    rw [run, hrun]
    simp only [Render_eq m σ n hl hn]
    exact ⟨_, _, rfl, rfl⟩

theorem frame_eq (m : Libm) (n : ℕ) (hn : n + 1 < 2 ^ 31) :
    ∃ bg c, frame m n = some
      [Event.drawQuad (BufferRef.buffers (n % 215)) bg c,
        Event.drawBuffer (BufferRef.buffers (n % 215)) false,
        Event.drawBuffer BufferRef.staticBuffer true] := by
  obtain ⟨σ, es, hrun, hl⟩ := run_lastBuffer m n (by omega)
  unfold frame
  rw [hrun]
  simp only [Render_eq m σ n hl hn, Option.map_some']
  exact ⟨_, _, rfl⟩

theorem frame_drawTargets (m : Libm) (n : ℕ) (hn : n + 1 < 2 ^ 31) :
    (frame m n).map drawTargets = some [BufferRef.buffers (n % 215)] ∧
      (frame m n).map shownTargets
        = some [(BufferRef.buffers (n % 215), false), (BufferRef.staticBuffer, true)] := by
  obtain ⟨bg, c, h⟩ := frame_eq m n hn
  rw [h]
  exact ⟨rfl, rfl⟩

/-- Claim C9. While the frame counter has not overflowed, the call of `Render`
that follows `n` earlier calls finds `lastBuffer = n`, draws into and
composites `buffers[n mod 215]` (an index within the array), the next call
selects the cyclically next buffer, and among any 215 consecutive calls each
dynamic buffer is selected exactly once. -/
theorem round_robin_selection (m : Libm) (n : ℕ) (hn : n + 1 < 2 ^ 31) :
    (∃ σ es, run m n = some (σ, es) ∧ σ.lastBuffer = n) ∧
      (∃ bg c, frame m n = some
        [Event.drawQuad (BufferRef.buffers (n % 215)) bg c,
          Event.drawBuffer (BufferRef.buffers (n % 215)) false,
          Event.drawBuffer BufferRef.staticBuffer true]) ∧
      (0 ≤ ((n % 215 : ℕ) : ℤ) ∧ ((n % 215 : ℕ) : ℤ) < bufferCount) ∧
      (n + 2 < 2 ^ 31 →
        (frame m (n + 1)).map drawTargets = some [BufferRef.buffers ((n % 215 + 1) % 215)]) ∧
      (n + 215 < 2 ^ 31 → ∀ i, i < 215 →
        ∃! k, k < 215 ∧ (frame m (n + k)).map drawTargets = some [BufferRef.buffers i]) := by
  refine ⟨run_lastBuffer m n (by omega), frame_eq m n (by omega), ?_, ?_, ?_⟩
  · have : n % 215 < 215 := Nat.mod_lt _ (by norm_num)
    unfold bufferCount
    omega
  · intro hn2
    rw [(frame_drawTargets m (n + 1) (by omega)).1]
    congr 3
    omega
  · intro hn215 i hi
    refine ⟨(i + 215 - n % 215) % 215, ⟨Nat.mod_lt _ (by norm_num), ?_⟩, ?_⟩
    · rw [(frame_drawTargets m _ (by omega)).1]
      congr 3
      omega
    · rintro k ⟨hk, hsel⟩
      rw [(frame_drawTargets m (n + k) (by omega)).1] at hsel
      simp only [Option.some.injEq, List.cons.injEq, BufferRef.buffers.injEq, and_true] at hsel
      omega

/-- Claim C9 at the fourth call of `Render`. -/
theorem round_robin_selection_witness :
    3 + 1 < 2 ^ 31 ∧
      ((∃ σ es, run Libm.crude 3 = some (σ, es) ∧ σ.lastBuffer = (3 : ℕ)) ∧
        (∃ bg c, frame Libm.crude 3 = some
          [Event.drawQuad (BufferRef.buffers (3 % 215)) bg c,
            Event.drawBuffer (BufferRef.buffers (3 % 215)) false,
            Event.drawBuffer BufferRef.staticBuffer true]) ∧
        (0 ≤ ((3 % 215 : ℕ) : ℤ) ∧ ((3 % 215 : ℕ) : ℤ) < bufferCount) ∧
        (3 + 2 < 2 ^ 31 →
          (frame Libm.crude (3 + 1)).map drawTargets
            = some [BufferRef.buffers ((3 % 215 + 1) % 215)]) ∧
        (3 + 215 < 2 ^ 31 → ∀ i, i < 215 →
          ∃! k, k < 215 ∧
            (frame Libm.crude (3 + k)).map drawTargets = some [BufferRef.buffers i])) :=
  ⟨by norm_num, round_robin_selection Libm.crude 3 (by norm_num)⟩

theorem drawTargets_append (es es' : List Event) :
    drawTargets (es ++ es') = drawTargets es ++ drawTargets es' := by
  induction es with
  | nil => rfl
  | cons e es ih =>
    cases e <;> simp [drawTargets, ih]

theorem run_count_static (m : Libm) :
    ∀ (n : ℕ) (σ : State) (es : List Event), run m n = some (σ, es) →
      List.count BufferRef.staticBuffer (drawTargets es) = 1 := by
  intro n
  induction n with
  | zero =>
    intro σ es h
    simp only [run, Option.some.injEq] at h
    have hes : es = (InitScene m).2 := by rw [h]
    rw [hes]
    simp [InitScene, DrawQuad, drawTargets]
  | succ n ih =>
    intro σ es h
    rw [run] at h
    rcases hr : run m n with _ | ⟨σ0, es0⟩
    · simp [hr] at h
    · simp only [hr] at h
      rcases hR : Render m σ0 with _ | ⟨σ1, es1⟩
      · simp [hR] at h
      · simp only [hR, Option.some.injEq, Prod.mk.injEq] at h
        obtain ⟨-, rfl⟩ := h
        obtain ⟨i, -, hd, -⟩ := Render_drawTargets m σ0 σ1 es1 hR
        rw [drawTargets_append, List.count_append, ih σ0 es0 hr, hd]
        simp

/-- Claim C10. `InitScene` draws one quad, into the static buffer; every call
of `Render` draws one quad, into a dynamic buffer, and resolves and composites
that buffer and the static one; so after `InitScene` and any number of calls of
`Render` the number of quads drawn into the static buffer is 1. -/
theorem static_buffer_drawn_once (m : Libm) :
    drawTargets (InitScene m).2 = [BufferRef.staticBuffer] ∧
      (∀ (σ σ' : State) (es : List Event), Render m σ = some (σ', es) →
        (∃ i, i < 215 ∧ drawTargets es = [BufferRef.buffers i] ∧
          shownTargets es = [(BufferRef.buffers i, false), (BufferRef.staticBuffer, true)]) ∧
        BufferRef.staticBuffer ∉ drawTargets es) ∧
      (∀ (n : ℕ) (σ : State) (es : List Event), run m n = some (σ, es) →
        List.count BufferRef.staticBuffer (drawTargets es) = 1) ∧
      (∀ n : ℕ, n < 2 ^ 31 → ∃ σ es, run m n = some (σ, es) ∧
        List.count BufferRef.staticBuffer (drawTargets es) = 1) := by
  refine ⟨rfl, ?_, run_count_static m, ?_⟩
  · intro σ σ' es h
    obtain ⟨i, hi, hd, hs⟩ := Render_drawTargets m σ σ' es h
    refine ⟨⟨i, hi, hd, hs⟩, ?_⟩
    rw [hd]
    simp
  · intro n hn
    obtain ⟨σ, es, hrun, -⟩ := run_lastBuffer m n hn
    exact ⟨σ, es, hrun, run_count_static m n σ es hrun⟩

/-- Claim C10 with the crude C library, after 1000 calls of `Render`. -/
theorem static_buffer_drawn_once_witness :
    ∃ σ es, run Libm.crude 1000 = some (σ, es) ∧
      List.count BufferRef.staticBuffer (drawTargets es) = 1 :=
  (static_buffer_drawn_once Libm.crude).2.2.2 1000 (by norm_num)

end VariantA

namespace VariantB

/-- Claim C1, amended. For non-negative 32 bit `w`, `h` and `maxSize`,
`Resize(w, h)` stores `w` (resp. `h`) when it is at most `maxSize` and `maxSize`
otherwise, so no stored dimension exceeds `maxSize`; and `maxSizeReached` holds
afterwards exactly when it held before or `w > maxSize` or `h > maxSize`. -/
theorem resize_clamps_to_maxSize (σ : State) (gl : ResizeGL) (w h : ℤ)
    (hw : 0 ≤ w) (hw' : w < 2 ^ 31) (hh : 0 ≤ h) (hh' : h < 2 ^ 31)
    (hm : 0 ≤ σ.buffer.maxSize) :
    ((MultisampleBuffer.Resize σ gl w h).buffer.width : ℤ)
        = (if w ≤ σ.buffer.maxSize then w else σ.buffer.maxSize) ∧
      ((MultisampleBuffer.Resize σ gl w h).buffer.height : ℤ)
        = (if h ≤ σ.buffer.maxSize then h else σ.buffer.maxSize) ∧
      ((MultisampleBuffer.Resize σ gl w h).buffer.width : ℤ) ≤ σ.buffer.maxSize ∧
      ((MultisampleBuffer.Resize σ gl w h).buffer.height : ℤ) ≤ σ.buffer.maxSize ∧
      (MultisampleBuffer.Resize σ gl w h).buffer.maxSize = σ.buffer.maxSize ∧
      ((MultisampleBuffer.Resize σ gl w h).maxSizeReached = true ↔
        (σ.maxSizeReached = true ∨ w > σ.buffer.maxSize ∨ h > σ.buffer.maxSize)) := by
  have key : ∀ x : ℤ, 0 ≤ x → x < 2 ^ 31 →
      ((toGLuint (min x σ.buffer.maxSize) : ℕ) : ℤ)
        = (if x ≤ σ.buffer.maxSize then x else σ.buffer.maxSize) ∧
      ((toGLuint (min x σ.buffer.maxSize) : ℕ) : ℤ) ≤ σ.buffer.maxSize := by
    intro x hx hx'
    unfold toGLuint
    have h0 : 0 ≤ min x σ.buffer.maxSize := le_min hx hm
    have h1 : min x σ.buffer.maxSize < 2 ^ 32 := by
      have := min_le_left x σ.buffer.maxSize
      omega
    rw [Int.emod_eq_of_lt h0 h1, Int.toNat_of_nonneg h0]
    refine ⟨?_, min_le_right _ _⟩
    by_cases hc : x ≤ σ.buffer.maxSize
    · rw [if_pos hc, min_eq_left hc]
    · rw [if_neg hc, min_eq_right (le_of_lt (not_le.mp hc))]
  rw [Resize_buffer, Resize_maxSizeReached]
  refine ⟨(key w hw hw').1, (key h hh hh').1, (key w hw hw').2, (key h hh hh').2, rfl, ?_⟩
  simp [or_assoc]

/-- The amended claim C1 at a request above the maximum. -/
theorem resize_clamps_to_maxSize_witness :
    ((MultisampleBuffer.Resize (InitScene ⟨8192, 0⟩) ⟨0, 0, 0x8CD5, 0, 0x8CD5⟩ 9734 307).buffer.width
        : ℤ) = (if (9734 : ℤ) ≤ (InitScene ⟨8192, 0⟩).buffer.maxSize then 9734
          else (InitScene ⟨8192, 0⟩).buffer.maxSize) ∧
      ((MultisampleBuffer.Resize (InitScene ⟨8192, 0⟩) ⟨0, 0, 0x8CD5, 0, 0x8CD5⟩ 9734 307).buffer.height
        : ℤ) = (if (307 : ℤ) ≤ (InitScene ⟨8192, 0⟩).buffer.maxSize then 307
          else (InitScene ⟨8192, 0⟩).buffer.maxSize) ∧
      ((MultisampleBuffer.Resize (InitScene ⟨8192, 0⟩) ⟨0, 0, 0x8CD5, 0, 0x8CD5⟩ 9734 307).buffer.width
        : ℤ) ≤ (InitScene ⟨8192, 0⟩).buffer.maxSize ∧
      ((MultisampleBuffer.Resize (InitScene ⟨8192, 0⟩) ⟨0, 0, 0x8CD5, 0, 0x8CD5⟩ 9734 307).buffer.height
        : ℤ) ≤ (InitScene ⟨8192, 0⟩).buffer.maxSize ∧
      (MultisampleBuffer.Resize (InitScene ⟨8192, 0⟩) ⟨0, 0, 0x8CD5, 0, 0x8CD5⟩ 9734 307).buffer.maxSize
        = (InitScene ⟨8192, 0⟩).buffer.maxSize ∧
      ((MultisampleBuffer.Resize (InitScene ⟨8192, 0⟩) ⟨0, 0, 0x8CD5, 0, 0x8CD5⟩ 9734 307).maxSizeReached
          = true ↔
        ((InitScene ⟨8192, 0⟩).maxSizeReached = true ∨
          (9734 : ℤ) > (InitScene ⟨8192, 0⟩).buffer.maxSize ∨
          (307 : ℤ) > (InitScene ⟨8192, 0⟩).buffer.maxSize)) :=
  resize_clamps_to_maxSize (InitScene ⟨8192, 0⟩) ⟨0, 0, 0x8CD5, 0, 0x8CD5⟩ 9734 307
    (by decide) (by decide) (by decide) (by decide) (by decide)

/-- Claim C1 as stated fails for a negative request: `Resize(-1, 5)` with
`maxSize = 8192` stores the width `4294967295`, which is neither the request
`-1` nor at most `maxSize`.  It also fails for a negative `maxSize`:
`Resize(5, 5)` with `maxSize = -1` stores the width `4294967295`, which is not
`maxSize`. -/
theorem resize_negative_request_counterexample :
    ((MultisampleBuffer.Resize (InitScene ⟨8192, 0⟩) ⟨0, 0, 0x8CD5, 0, 0x8CD5⟩ (-1) 5).buffer.width
        = 4294967295 ∧
      (-1 : ℤ) ≤ (InitScene ⟨8192, 0⟩).buffer.maxSize ∧
      ¬ (((MultisampleBuffer.Resize (InitScene ⟨8192, 0⟩) ⟨0, 0, 0x8CD5, 0, 0x8CD5⟩ (-1) 5).buffer.width
        : ℤ) = -1) ∧
      ¬ (((MultisampleBuffer.Resize (InitScene ⟨8192, 0⟩) ⟨0, 0, 0x8CD5, 0, 0x8CD5⟩ (-1) 5).buffer.width
        : ℤ) ≤ (InitScene ⟨8192, 0⟩).buffer.maxSize)) ∧
      ((MultisampleBuffer.Resize (InitScene ⟨-1, 0⟩) ⟨0, 0, 0x8CD5, 0, 0x8CD5⟩ 5 5).buffer.width
          = 4294967295 ∧
        ¬ ((5 : ℤ) ≤ (InitScene ⟨-1, 0⟩).buffer.maxSize) ∧
        ¬ (((MultisampleBuffer.Resize (InitScene ⟨-1, 0⟩) ⟨0, 0, 0x8CD5, 0, 0x8CD5⟩ 5 5).buffer.width
          : ℤ) = (InitScene ⟨-1, 0⟩).buffer.maxSize)) := by
  decide

end VariantB

namespace VariantB

theorem run_succ_of_some (m : Libm) (gl : ℕ → TickGL) (σ s : State) (n : ℕ)
    (hrun : run m gl σ n = some s) :
    run m gl σ (n + 1) = (Render m s (gl n)).map Prod.fst := by
  rw [run, hrun]

theorem run_stays (m : Libm) (gl : ℕ → TickGL) (σ s : State) (k : ℕ)
    (hrun : run m gl σ k = some s)
    (h : s.hasError = true ∨ s.invalidFramebuffer = true ∨ s.maxSizeReached = true) :
    ∀ n, k ≤ n → run m gl σ n = some s := by
  intro n hn
  induction n, hn using Nat.le_induction with
  | base => exact hrun
  | succ n _ ih =>
    rw [run_succ_of_some m gl σ s n ih, Render_of_flag m s (gl n) h]
    rfl

theorem run_of_flag (m : Libm) (gl : ℕ → TickGL) (σ : State)
    (h : σ.hasError = true ∨ σ.invalidFramebuffer = true ∨ σ.maxSizeReached = true) (n : ℕ) :
    run m gl σ n = some σ := by
  induction n with
  | zero => rfl
  | succ n ih =>
    rw [run_succ_of_some m gl σ σ n ih, Render_of_flag m σ (gl n) h]
    rfl

/-- Claim C2. In a state where one of `hasError`, `invalidFramebuffer`,
`maxSizeReached` is set, a tick calls no `Resize` and returns the very same
state: width, height and the three flags are unchanged, so no flag is cleared;
and the state stays the same after any number of ticks, whatever the driver
answers. -/
theorem sticky_flag_invariant (m : Libm) (σ : State) (gl : TickGL)
    (h : σ.hasError = true ∨ σ.invalidFramebuffer = true ∨ σ.maxSizeReached = true) :
    (∃ es, Render m σ gl = some (σ, es) ∧ hasResize es = false) ∧
      (∀ σ' es, Render m σ gl = some (σ', es) →
        σ'.buffer.width = σ.buffer.width ∧ σ'.buffer.height = σ.buffer.height ∧
        σ'.hasError = σ.hasError ∧ σ'.invalidFramebuffer = σ.invalidFramebuffer ∧
        σ'.maxSizeReached = σ.maxSizeReached) ∧
      (∀ (gls : ℕ → TickGL) (n : ℕ), run m gls σ n = some σ) := by
  refine ⟨⟨_, Render_of_flag m σ gl h, ?_⟩, ?_, fun gls n => run_of_flag m gls σ h n⟩
  · split_ifs <;> rfl
  · intro σ' es heq
    rw [Render_of_flag m σ gl h] at heq
    simp only [Option.some.injEq, Prod.mk.injEq] at heq
    obtain ⟨rfl, _⟩ := heq
    exact ⟨rfl, rfl, rfl, rfl, rfl⟩

/-- Claim C2 at the state reached when the constructor saw a GL error. -/
theorem sticky_flag_invariant_witness :
    ((InitScene ⟨8192, 1⟩).hasError = true ∨ (InitScene ⟨8192, 1⟩).invalidFramebuffer = true ∨
        (InitScene ⟨8192, 1⟩).maxSizeReached = true) ∧
      ((∃ es, Render Libm.crude (InitScene ⟨8192, 1⟩) TickGL.ok = some (InitScene ⟨8192, 1⟩, es) ∧
          hasResize es = false) ∧
        (∀ σ' es, Render Libm.crude (InitScene ⟨8192, 1⟩) TickGL.ok = some (σ', es) →
          σ'.buffer.width = (InitScene ⟨8192, 1⟩).buffer.width ∧
          σ'.buffer.height = (InitScene ⟨8192, 1⟩).buffer.height ∧
          σ'.hasError = (InitScene ⟨8192, 1⟩).hasError ∧
          σ'.invalidFramebuffer = (InitScene ⟨8192, 1⟩).invalidFramebuffer ∧
          σ'.maxSizeReached = (InitScene ⟨8192, 1⟩).maxSizeReached) ∧
        (∀ (gls : ℕ → TickGL) (n : ℕ),
          run Libm.crude gls (InitScene ⟨8192, 1⟩) n = some (InitScene ⟨8192, 1⟩))) :=
  ⟨Or.inl (by decide),
    sticky_flag_invariant Libm.crude (InitScene ⟨8192, 1⟩) TickGL.ok (Or.inl (by decide))⟩

/-- Which calls a tick issues: the green, red or blue clear of the framebuffer
that is bound, according to the flags, and otherwise the growing branch. -/
theorem Render_clear_iff (m : Libm) (σ : State) (gl : TickGL) :
    (Render m σ gl = some (σ, [Event.clear σ.drawFramebuffer 0 1 0]) ↔ σ.hasError = true) ∧
      (Render m σ gl = some (σ, [Event.clear σ.drawFramebuffer 1 0 0]) ↔
        (σ.invalidFramebuffer = true ∧ σ.hasError = false)) ∧
      (Render m σ gl = some (σ, [Event.clear σ.drawFramebuffer 0 0 1]) ↔
        (σ.maxSizeReached = true ∧ σ.hasError = false ∧ σ.invalidFramebuffer = false)) ∧
      ((Render m σ gl = none ∨ ∃ σ' w h es, Render m σ gl = some (σ', Event.resize w h :: es)) ↔
        (σ.hasError = false ∧ σ.invalidFramebuffer = false ∧ σ.maxSizeReached = false)) := by
  by_cases hflag : σ.hasError = true ∨ σ.invalidFramebuffer = true ∨ σ.maxSizeReached = true
  · rw [Render_of_flag m σ gl hflag]
    rcases hE : σ.hasError with _ | _ <;> rcases hI : σ.invalidFramebuffer with _ | _ <;>
      rcases hM : σ.maxSizeReached with _ | _ <;> simp_all
  · have hE : σ.hasError = false := by
      rcases hE : σ.hasError with _ | _
      · rfl
      · exact absurd (Or.inl hE) hflag
    have hI : σ.invalidFramebuffer = false := by
      rcases hI : σ.invalidFramebuffer with _ | _
      · rfl
      · exact absurd (Or.inr (Or.inl hI)) hflag
    have hM : σ.maxSizeReached = false := by
      rcases hM : σ.maxSizeReached with _ | _
      · rfl
      · exact absurd (Or.inr (Or.inr hM)) hflag
    have hgrow : Render m σ gl = none ∨
        ∃ σ' w h es, Render m σ gl = some (σ', Event.resize w h :: es) := by
      rcases hw : scaleDimension σ.buffer.width with _ | w
      · left; unfold Render; simp [hE, hI, hM, hw]
      · rcases hh : scaleDimension σ.buffer.height with _ | h
        · left; unfold Render; simp [hE, hI, hM, hw, hh]
        · right
          obtain ⟨σ', es, heq, _⟩ := Render_of_noFlag m σ gl hE hI hM hw hh
          exact ⟨σ', w, h, es, heq⟩
    have hne : ∀ c : Event, (∃ t r g b, c = Event.clear t r g b) →
        Render m σ gl ≠ some (σ, [c]) := by
      rintro c ⟨t, r, g, b, rfl⟩ heq
      rcases hgrow with hn | ⟨σ', w, h, es, hs⟩
      · rw [hn] at heq; exact absurd heq (by simp)
      · rw [hs] at heq
        simp at heq
    refine ⟨?_, ?_, ?_, ?_⟩
    · simp [hE, hne _ ⟨_, _, _, _, rfl⟩]
    · simp [hE, hI, hne _ ⟨_, _, _, _, rfl⟩]
    · simp [hE, hI, hM, hne _ ⟨_, _, _, _, rfl⟩]
    · simp [hE, hI, hM, hgrow]

/-- In every state the program reaches while `hasError` is unset, framebuffer
0 is bound: the red and the blue clear always clear the window. -/
theorem run_window_of_no_error (m : Libm) (gl : ℕ → TickGL) (g0 : InitGL) :
    ∀ (n : ℕ) (s : State), run m gl (InitScene g0) n = some s → s.hasError = false →
      s.drawFramebuffer = Framebuffer.window := by
  intro n
  induction n with
  | zero =>
    intro s hrun _
    simp only [run, Option.some.injEq] at hrun
    rw [← hrun]
    simp [InitScene, MultisampleBuffer.new, CheckGLError_eq]
  | succ n ih =>
    intro s hrun hE'
    rcases hr : run m gl (InitScene g0) n with _ | s0
    · rw [run, hr] at hrun
      exact absurd hrun (by simp)
    · rw [run_succ_of_some m gl _ s0 n hr] at hrun
      by_cases hflag : s0.hasError = true ∨ s0.invalidFramebuffer = true ∨
          s0.maxSizeReached = true
      · rw [Render_of_flag m s0 (gl n) hflag] at hrun
        simp only [Option.map_some', Option.some.injEq] at hrun
        subst hrun
        exact ih _ hr hE'
      · have hE : s0.hasError = false := by
          rcases hE : s0.hasError with _ | _
          · rfl
          · exact absurd (Or.inl hE) hflag
        have hI : s0.invalidFramebuffer = false := by
          rcases hI : s0.invalidFramebuffer with _ | _
          · rfl
          · exact absurd (Or.inr (Or.inl hI)) hflag
        have hM : s0.maxSizeReached = false := by
          rcases hM : s0.maxSizeReached with _ | _
          · rfl
          · exact absurd (Or.inr (Or.inr hM)) hflag
        rcases hw : scaleDimension s0.buffer.width with _ | w
        · unfold Render at hrun
          simp [hE, hI, hM, hw] at hrun
        · rcases hh : scaleDimension s0.buffer.height with _ | h
          · unfold Render at hrun
            simp [hE, hI, hM, hw, hh] at hrun
          · obtain ⟨σ', es, heq, -, -, -, hwin, herr⟩ :=
              Render_of_noFlag m s0 (gl n) hE hI hM hw hh
            rw [heq] at hrun
            simp only [Option.map_some', Option.some.injEq] at hrun
            subst hrun
            rcases hR : (MultisampleBuffer.Resize s0 (gl n).resize w h).hasError with _ | _
            · exact hwin hR
            · rw [(herr hR).1, hR] at hE'
              exact absurd hE' (by simp)

/-- Claim C6 fails on the code, against the comment of `Render` that the
screen renders solid green once an OpenGL error has been encountered.  When
the allocation in the first `Resize` raises `GL_OUT_OF_MEMORY`, the first tick
sets `hasError` and ends after `Resize`, which leaves `fbo` bound; the green
clear of every later tick then clears `fbo`, never the window. -/
theorem green_clear_misses_window :
    frame Libm.crude (fun _ => TickGL.outOfMemory) (InitScene ⟨8192, 0⟩) 0
        = some [Event.resize 307 307] ∧
      (run Libm.crude (fun _ => TickGL.outOfMemory) (InitScene ⟨8192, 0⟩) 1).map
          (fun s => (s.hasError, s.invalidFramebuffer, s.maxSizeReached, s.drawFramebuffer))
        = some (true, false, false, Framebuffer.fbo) ∧
      (∀ n, 1 ≤ n →
        frame Libm.crude (fun _ => TickGL.outOfMemory) (InitScene ⟨8192, 0⟩) n
          = some [Event.clear Framebuffer.fbo 0 1 0]) ∧
      Framebuffer.fbo ≠ Framebuffer.window := by
  have e : (InitScene ⟨8192, 0⟩).buffer.width = 256 := by decide
  have e' : (InitScene ⟨8192, 0⟩).buffer.height = 256 := by decide
  have hs : scaleDimension 256 = some 307 := by
    rw [scaleDimension_eq (by norm_num)]; norm_num
  obtain ⟨σ', es, heq, -, -, -, -, herr⟩ := Render_of_noFlag Libm.crude (InitScene ⟨8192, 0⟩)
    TickGL.outOfMemory (w := 307) (h := 307) (by decide) (by decide) (by decide)
    (by rw [e]; exact hs) (by rw [e']; exact hs)
  obtain ⟨hσ', hes⟩ := herr (by decide)
  subst hσ' hes
  have hrun1 : run Libm.crude (fun _ => TickGL.outOfMemory) (InitScene ⟨8192, 0⟩) 1
      = some (MultisampleBuffer.Resize (InitScene ⟨8192, 0⟩) TickGL.outOfMemory.resize 307 307) := by
    rw [run_succ_of_some Libm.crude _ _ (InitScene ⟨8192, 0⟩) 0 rfl, heq]
    rfl
  have hflag : (MultisampleBuffer.Resize (InitScene ⟨8192, 0⟩)
      TickGL.outOfMemory.resize 307 307).hasError = true := by decide
  refine ⟨?_, ?_, ?_, by decide⟩
  · unfold frame
    simp only [run, heq, Option.map_some']
  · rw [hrun1]
    decide
  · intro n hn
    unfold frame
    rw [run_stays Libm.crude _ _ _ 1 hrun1 (Or.inl hflag) n hn]
    simp only [Render_of_flag Libm.crude _ TickGL.outOfMemory (Or.inl hflag),
      Option.map_some', hflag, if_true]
    decide

end VariantB

namespace VariantB

/-- Claim C5, amended. When a framebuffer completeness check of `Resize`
reports the framebuffer as incomplete, with or without a GL API error, `Resize`
sets `hasError` and leaves `invalidFramebuffer` as it was. -/
theorem resize_incomplete_sets_hasError (σ : State) (gl : ResizeGL) (w h : ℤ)
    (hinc : gl.statusMultisample ≠ GL_FRAMEBUFFER_COMPLETE ∨
      gl.statusColor ≠ GL_FRAMEBUFFER_COMPLETE) :
    (MultisampleBuffer.Resize σ gl w h).hasError = true ∧
      (MultisampleBuffer.Resize σ gl w h).invalidFramebuffer = σ.invalidFramebuffer := by
  rw [Resize_hasError, Resize_invalidFramebuffer]
  refine ⟨?_, rfl⟩
  rcases hinc with h1 | h1 <;> simp [h1]

/-- The amended claim C5 at an incomplete multisample framebuffer. -/
theorem resize_incomplete_sets_hasError_witness :
    ((⟨0, 0, 0, 0, 0x8CD5⟩ : ResizeGL).statusMultisample ≠ GL_FRAMEBUFFER_COMPLETE ∨
        (⟨0, 0, 0, 0, 0x8CD5⟩ : ResizeGL).statusColor ≠ GL_FRAMEBUFFER_COMPLETE) ∧
      (MultisampleBuffer.Resize (InitScene ⟨8192, 0⟩) ⟨0, 0, 0, 0, 0x8CD5⟩ 307 307).hasError = true ∧
      (MultisampleBuffer.Resize (InitScene ⟨8192, 0⟩) ⟨0, 0, 0, 0, 0x8CD5⟩ 307 307).invalidFramebuffer
        = (InitScene ⟨8192, 0⟩).invalidFramebuffer :=
  ⟨Or.inl (by decide),
    resize_incomplete_sets_hasError (InitScene ⟨8192, 0⟩) ⟨0, 0, 0, 0, 0x8CD5⟩ 307 307
      (Or.inl (by decide))⟩

/-- Claim C5 as stated fails: with no GL API error and the multisample
framebuffer reported incomplete, `Resize` sets `hasError` and does not set
`invalidFramebuffer`. -/
theorem resize_incomplete_counterexample :
    (⟨0, 0, 0, 0, 0x8CD5⟩ : ResizeGL).errColor = GL_NO_ERROR ∧
      (⟨0, 0, 0, 0, 0x8CD5⟩ : ResizeGL).errDepth = GL_NO_ERROR ∧
      (⟨0, 0, 0, 0, 0x8CD5⟩ : ResizeGL).errTexture = GL_NO_ERROR ∧
      (⟨0, 0, 0, 0, 0x8CD5⟩ : ResizeGL).statusMultisample ≠ GL_FRAMEBUFFER_COMPLETE ∧
      (InitScene ⟨8192, 0⟩).hasError = false ∧
      (MultisampleBuffer.Resize (InitScene ⟨8192, 0⟩) ⟨0, 0, 0, 0, 0x8CD5⟩ 307 307).hasError = true ∧
      (MultisampleBuffer.Resize (InitScene ⟨8192, 0⟩) ⟨0, 0, 0, 0, 0x8CD5⟩ 307 307).invalidFramebuffer
        = false := by
  decide

/-- Claim C7, amended. After `Resize(w, h)` the multisample colour and depth
storage have the same dimensions, which converted to `GLuint` are the stored
width and height; the resolve texture has these dimensions too when the
multisample framebuffer is reported complete, and keeps its previous dimensions
when it is reported incomplete. -/
theorem resize_storage_dimensions (σ : State) (gl : ResizeGL) (w h : ℤ) :
    (MultisampleBuffer.Resize σ gl w h).buffer.multisampleDepthSize
        = (MultisampleBuffer.Resize σ gl w h).buffer.multisampleColorSize ∧
      toGLuint (MultisampleBuffer.Resize σ gl w h).buffer.multisampleColorSize.1
        = (MultisampleBuffer.Resize σ gl w h).buffer.width ∧
      toGLuint (MultisampleBuffer.Resize σ gl w h).buffer.multisampleColorSize.2
        = (MultisampleBuffer.Resize σ gl w h).buffer.height ∧
      (MultisampleBuffer.Resize σ gl w h).buffer.colorSize
        = (if gl.statusMultisample = GL_FRAMEBUFFER_COMPLETE then
            (MultisampleBuffer.Resize σ gl w h).buffer.multisampleColorSize
          else σ.buffer.colorSize) := by
  rw [Resize_buffer]
  exact ⟨rfl, rfl, rfl, rfl⟩

/-- Claim C7 as stated fails: when the multisample framebuffer is reported
incomplete, `Resize(307, 307)` of the 256 x 256 buffer leaves the resolve
texture at 256 x 256 while the multisample storage and the stored dimensions
are 307 x 307. -/
theorem resize_storage_dimensions_counterexample :
    (MultisampleBuffer.Resize (InitScene ⟨8192, 0⟩) ⟨0, 0, 0, 0, 0x8CD5⟩ 307 307).buffer.width
        = 307 ∧
      (MultisampleBuffer.Resize (InitScene ⟨8192, 0⟩) ⟨0, 0, 0, 0, 0x8CD5⟩ 307 307).buffer.height
        = 307 ∧
      (MultisampleBuffer.Resize (InitScene ⟨8192, 0⟩) ⟨0, 0, 0, 0, 0x8CD5⟩
        307 307).buffer.multisampleColorSize = (307, 307) ∧
      (MultisampleBuffer.Resize (InitScene ⟨8192, 0⟩) ⟨0, 0, 0, 0, 0x8CD5⟩
        307 307).buffer.multisampleDepthSize = (307, 307) ∧
      (MultisampleBuffer.Resize (InitScene ⟨8192, 0⟩) ⟨0, 0, 0, 0, 0x8CD5⟩
        307 307).buffer.colorSize = (256, 256) := by
  decide

end VariantB

theorem toGLuint_natCast {n : ℕ} (hn : n < 2 ^ 32) : toGLuint (n : ℤ) = n := by
  unfold toGLuint
  have h1 : ((n : ℤ)) < 2 ^ 32 := by exact_mod_cast hn
  rw [Int.emod_eq_of_lt (by positivity) h1, Int.toNat_natCast]

namespace VariantB

/-- Claim C4, amended. For a buffer whose width and height are at least 5, in
a state where no flag is set, a tick whose requested dimensions do not exceed
`maxSize` stores exactly the requested dimensions, and each is strictly
greater than the dimension before the tick. -/
theorem growth_is_strict (m : Libm) (σ : State) (gl : TickGL) (w h : ℤ)
    (hE : σ.hasError = false) (hI : σ.invalidFramebuffer = false)
    (hM : σ.maxSizeReached = false)
    (hw5 : 5 ≤ σ.buffer.width) (hh5 : 5 ≤ σ.buffer.height)
    (hwr : σ.buffer.width < 2 ^ 32) (hhr : σ.buffer.height < 2 ^ 32)
    (hw : scaleDimension σ.buffer.width = some w) (hh : scaleDimension σ.buffer.height = some h)
    (hwm : w ≤ σ.buffer.maxSize) (hhm : h ≤ σ.buffer.maxSize) :
    ∃ σ' es, Render m σ gl = some (σ', es) ∧
      (σ'.buffer.width : ℤ) = w ∧ (σ'.buffer.height : ℤ) = h ∧
      σ.buffer.width < σ'.buffer.width ∧ σ.buffer.height < σ'.buffer.height := by
  obtain ⟨σ', es, heq, hbuf, -, -⟩ := Render_of_noFlag m σ gl hE hI hM hw hh
  refine ⟨σ', _, heq, ?_⟩
  rw [hbuf, Resize_buffer]
  simp only [min_eq_left hwm, min_eq_left hhm]
  rw [scaleDimension_eq hwr] at hw
  rw [scaleDimension_eq hhr] at hh
  split_ifs at hw with hw1
  split_ifs at hh with hh1
  simp only [Option.some.injEq] at hw hh
  subst hw hh
  rw [toGLuint_natCast (n := σ.buffer.width * 6 / 5) (by omega),
    toGLuint_natCast (n := σ.buffer.height * 6 / 5) (by omega)]
  have key : ∀ a : ℕ, 5 ≤ a → a < a * 6 / 5 := by
    intro a ha
    omega
  exact ⟨rfl, rfl, key _ hw5, key _ hh5⟩

/-- The amended claim C4 at the first tick of the program: 256 grows to 307. -/
theorem growth_is_strict_witness :
    ∃ σ' es, Render Libm.crude (InitScene ⟨8192, 0⟩) TickGL.ok = some (σ', es) ∧
      (σ'.buffer.width : ℤ) = 307 ∧ (σ'.buffer.height : ℤ) = 307 ∧
      (InitScene ⟨8192, 0⟩).buffer.width < σ'.buffer.width ∧
      (InitScene ⟨8192, 0⟩).buffer.height < σ'.buffer.height :=
  growth_is_strict Libm.crude (InitScene ⟨8192, 0⟩) TickGL.ok 307 307
    (by decide) (by decide) (by decide) (by decide) (by decide) (by decide) (by decide)
    (by
      have e : (InitScene ⟨8192, 0⟩).buffer.width = 256 := by decide
      rw [e, scaleDimension_eq (by norm_num)]
      norm_num)
    (by
      have e : (InitScene ⟨8192, 0⟩).buffer.height = 256 := by decide
      rw [e, scaleDimension_eq (by norm_num)]
      norm_num)
    (by decide) (by decide)

/-- Claim C4 as stated fails for small buffers: a 1 x 1 buffer with
`maxSize = 8192` and no flag set requests `trunc(1 * 1.2) = 1`, and the tick
stores 1 x 1 again; nothing has grown. -/
theorem growth_small_buffer_counterexample :
    0 < (MultisampleBuffer.new ⟨8192, 0⟩ 1 1).buffer.width ∧
      0 < (MultisampleBuffer.new ⟨8192, 0⟩ 1 1).buffer.height ∧
      (MultisampleBuffer.new ⟨8192, 0⟩ 1 1).hasError = false ∧
      (MultisampleBuffer.new ⟨8192, 0⟩ 1 1).invalidFramebuffer = false ∧
      (MultisampleBuffer.new ⟨8192, 0⟩ 1 1).maxSizeReached = false ∧
      scaleDimension (MultisampleBuffer.new ⟨8192, 0⟩ 1 1).buffer.width = some 1 ∧
      scaleDimension (MultisampleBuffer.new ⟨8192, 0⟩ 1 1).buffer.height = some 1 ∧
      (1 : ℤ) ≤ (MultisampleBuffer.new ⟨8192, 0⟩ 1 1).buffer.maxSize ∧
      (Render Libm.crude (MultisampleBuffer.new ⟨8192, 0⟩ 1 1) TickGL.ok).map
        (fun r => (r.1.buffer.width, r.1.buffer.height)) = some (1, 1) := by
  have ew : (MultisampleBuffer.new ⟨8192, 0⟩ 1 1).buffer.width = 1 := by decide
  have eh : (MultisampleBuffer.new ⟨8192, 0⟩ 1 1).buffer.height = 1 := by decide
  have hs : scaleDimension 1 = some 1 := by
    rw [scaleDimension_eq (by norm_num)]; norm_num
  refine ⟨by decide, by decide, by decide, by decide, by decide, by rw [ew]; exact hs,
    by rw [eh]; exact hs, by decide, ?_⟩
  obtain ⟨σ', es, heq, hbuf, -, -⟩ := Render_of_noFlag Libm.crude
    (MultisampleBuffer.new ⟨8192, 0⟩ 1 1) TickGL.ok (w := 1) (h := 1)
    (by decide) (by decide) (by decide) (by rw [ew]; exact hs) (by rw [eh]; exact hs)
  rw [heq]
  simp only [Option.map_some', Option.some.injEq, Prod.mk.injEq]
  rw [hbuf, Resize_buffer]
  constructor <;> decide

end VariantB

namespace VariantB

theorem Render_good_step (m : Libm) (s : State) (gl : TickGL) (a : ℕ)
    (hE : s.hasError = false) (hI : s.invalidFramebuffer = false)
    (hM : s.maxSizeReached = false) (hmax : s.buffer.maxSize = 8192)
    (hw : s.buffer.width = a) (hh : s.buffer.height = a) (ha : a ≤ 8192) (hg : gl.good) :
    ∃ s' es, Render m s gl
        = some (s', Event.resize ((a * 6 / 5 : ℕ) : ℤ) ((a * 6 / 5 : ℕ) : ℤ) :: es) ∧
      s'.hasError = false ∧ s'.invalidFramebuffer = false ∧
      s'.maxSizeReached = decide (8192 < a * 6 / 5) ∧ s'.buffer.maxSize = 8192 ∧
      s'.buffer.width = min (a * 6 / 5) 8192 ∧ s'.buffer.height = min (a * 6 / 5) 8192 ∧
      s'.drawFramebuffer = Framebuffer.window := by
  have hs : scaleDimension a = some ((a * 6 / 5 : ℕ) : ℤ) := by
    rw [scaleDimension_eq (by omega), if_pos (by omega)]
  obtain ⟨s', es, heq, hbuf, hmsr, hflags, hwin, -⟩ := Render_of_noFlag m s gl hE hI hM
    (by rw [hw]; exact hs) (by rw [hh]; exact hs)
  have hnoerr : (MultisampleBuffer.Resize s gl.resize ((a * 6 / 5 : ℕ) : ℤ)
      ((a * 6 / 5 : ℕ) : ℤ)).hasError = false := by
    obtain ⟨g1, g2, g3, g4, g5, -⟩ := hg
    rw [Resize_hasError]
    simp [g1, g2, g3, g4, g5, hE]
  have hmin : min (((a * 6 / 5 : ℕ) : ℤ)) 8192 = ((min (a * 6 / 5) 8192 : ℕ) : ℤ) := by
    push_cast; rfl
  refine ⟨s', es, heq, (hflags hg).1, (hflags hg).2, ?_, ?_, ?_, ?_, hwin hnoerr⟩
  · rw [hmsr, Resize_maxSizeReached, hM, hmax]
    by_cases hc : 8192 < a * 6 / 5
    · have : ((a * 6 / 5 : ℕ) : ℤ) > 8192 := by exact_mod_cast hc
      simp only [gt_iff_lt, this, hc, decide_True, Bool.or_self, Bool.or_true]
    · have : ¬ ((a * 6 / 5 : ℕ) : ℤ) > 8192 := by exact_mod_cast hc
      simp only [gt_iff_lt] at this
      simp only [gt_iff_lt, this, hc, decide_False, Bool.or_self]
  · rw [hbuf, Resize_buffer]; exact hmax
  · rw [hbuf, Resize_buffer, hmax]
    show toGLuint (min (((a * 6 / 5 : ℕ) : ℤ)) 8192) = _
    rw [hmin, toGLuint_natCast (lt_of_le_of_lt (min_le_right _ _) (by norm_num))]
  · rw [hbuf, Resize_buffer, hmax]
    show toGLuint (min (((a * 6 / 5 : ℕ) : ℤ)) 8192) = _
    rw [hmin, toGLuint_natCast (lt_of_le_of_lt (min_le_right _ _) (by norm_num))]

theorem run_growth (m : Libm) (gl : ℕ → TickGL) (hgood : ∀ n, n < 20 → (gl n).good) :
    ∀ k, k ≤ 19 → ∃ s, run m gl (InitScene ⟨8192, 0⟩) k = some s ∧
      s.hasError = false ∧ s.invalidFramebuffer = false ∧ s.maxSizeReached = false ∧
      s.buffer.maxSize = 8192 ∧ s.buffer.width = (fun a => a * 6 / 5)^[k] 256 ∧
      s.buffer.height = (fun a => a * 6 / 5)^[k] 256 := by
  intro k
  induction k with
  | zero =>
    intro _
    exact ⟨_, rfl, by decide, by decide, by decide, by decide, by decide, by decide⟩
  | succ k ih =>
    intro hk
    obtain ⟨s, hrun, hE, hI, hM, hmax, hw, hh⟩ := ih (by omega)
    have hb : (fun a => a * 6 / 5)^[k] 256 ≤ 8192 ∧
        ((fun a => a * 6 / 5)^[k] 256) * 6 / 5 ≤ 8192 := by
      have hk' : k ≤ 18 := by omega
      interval_cases k <;> decide
    obtain ⟨s', es, heq, hE', hI', hM', hmax', hw', hh', -⟩ :=
      Render_good_step m s (gl k) _ hE hI hM hmax hw hh hb.1 (hgood k (by omega))
    refine ⟨s', ?_, hE', hI', ?_, hmax', ?_, ?_⟩
    · rw [run_succ_of_some m gl _ s k hrun, heq]
      rfl
    · rw [hM']; simp; exact hb.2
    · rw [hw', Function.iterate_succ_apply', min_eq_left hb.2]
    · rw [hh', Function.iterate_succ_apply', min_eq_left hb.2]

end VariantB

namespace VariantB

theorem TickGL.ok_good : TickGL.ok.good := by
  decide

/-- Claim C3. From the 256 x 256 buffer with `maxSize = 8192`, as long as the
driver reports nothing wrong, the states before ticks 1 to 20 have the widths
(and heights) 256, 307, 368, ..., 8112 with `maxSizeReached` unset; the 20th
tick requests 9734 x 9734; the width and height never exceed 8192; and from the
20th tick on the buffer is 8192 x 8192, `maxSizeReached` is set, no other flag
is, and every tick renders the solid blue frame: its blue clear clears the
window. -/
theorem end_to_end_growth (m : Libm) (gl : ℕ → TickGL)
    (hgood : ∀ n, n < 20 → (gl n).good) :
    (∀ k, k < 20 →
      (run m gl (InitScene ⟨8192, 0⟩) k).map
          (fun s => (s.buffer.width, s.buffer.height, s.maxSizeReached))
        = ([256, 307, 368, 441, 529, 634, 760, 912, 1094, 1312, 1574, 1888, 2265, 2718,
            3261, 3913, 4695, 5634, 6760, 8112][k]?).map (fun a => (a, a, false))) ∧
      (frame m gl (InitScene ⟨8192, 0⟩) 19).map List.head?
        = some (some (Event.resize 9734 9734)) ∧
      (∀ n, ∃ s, run m gl (InitScene ⟨8192, 0⟩) n = some s ∧
        s.buffer.width ≤ 8192 ∧ s.buffer.height ≤ 8192) ∧
      (∀ n, 20 ≤ n → ∃ s, run m gl (InitScene ⟨8192, 0⟩) n = some s ∧
        s.buffer.width = 8192 ∧ s.buffer.height = 8192 ∧ s.maxSizeReached = true ∧
        s.hasError = false ∧ s.invalidFramebuffer = false ∧
        frame m gl (InitScene ⟨8192, 0⟩) n
          = some [Event.clear Framebuffer.window 0 0 1]) := by
  have hgrow := run_growth m gl hgood
  -- the 20th tick
  obtain ⟨s19, hrun19, hE, hI, hM, hmax, hw, hh⟩ := hgrow 19 le_rfl
  have h19 : (fun a => a * 6 / 5)^[19] 256 = 8112 := by decide
  rw [h19] at hw hh
  obtain ⟨s20, es, heq, hE', hI', hM', -, hw', hh', hwin⟩ :=
    Render_good_step m s19 (gl 19) 8112 hE hI hM hmax hw hh (by norm_num)
      (hgood 19 (by norm_num))
  have hrun20 : run m gl (InitScene ⟨8192, 0⟩) 20 = some s20 := by
    rw [run_succ_of_some m gl _ s19 19 hrun19, heq]
    rfl
  have hM20 : s20.maxSizeReached = true := by rw [hM']; decide
  have hw20 : s20.buffer.width = 8192 := by rw [hw']; decide
  have hh20 : s20.buffer.height = 8192 := by rw [hh']; decide
  have hlate := run_stays m gl _ s20 20 hrun20 (Or.inr (Or.inr hM20))
  refine ⟨?_, ?_, ?_, ?_⟩
  · intro k hk
    obtain ⟨s, hrun, -, -, hMk, -, hwk, hhk⟩ := hgrow k (by omega)
    rw [hrun, Option.map_some', hwk, hhk, hMk]
    interval_cases k <;> decide
  · unfold frame
    rw [hrun19]
    simp only [heq, Option.map_some', List.head?_cons]
    norm_num
  · intro n
    rcases Nat.lt_or_ge n 20 with hn | hn
    · obtain ⟨s, hrun, -, -, -, -, hwk, hhk⟩ := hgrow n (by omega)
      refine ⟨s, hrun, ?_, ?_⟩
      · rw [hwk]; interval_cases n <;> decide
      · rw [hhk]; interval_cases n <;> decide
    · exact ⟨s20, hlate n hn, le_of_eq hw20, le_of_eq hh20⟩
  · intro n hn
    refine ⟨s20, hlate n hn, hw20, hh20, hM20, hE', hI', ?_⟩
    unfold frame
    rw [hlate n hn]
    simp only [Render_of_flag m s20 (gl n) (Or.inr (Or.inr hM20)), Option.map_some']
    simp [hE', hI', hwin]

/-- Claim C3 with the crude C library and a driver that never reports anything
wrong. -/
theorem end_to_end_growth_witness :
    (∀ n, n < 20 → ((fun _ => TickGL.ok) n).good) ∧
      ((∀ k, k < 20 →
        (run Libm.crude (fun _ => TickGL.ok) (InitScene ⟨8192, 0⟩) k).map
            (fun s => (s.buffer.width, s.buffer.height, s.maxSizeReached))
          = ([256, 307, 368, 441, 529, 634, 760, 912, 1094, 1312, 1574, 1888, 2265, 2718,
              3261, 3913, 4695, 5634, 6760, 8112][k]?).map (fun a => (a, a, false))) ∧
        (frame Libm.crude (fun _ => TickGL.ok) (InitScene ⟨8192, 0⟩) 19).map List.head?
          = some (some (Event.resize 9734 9734)) ∧
        (∀ n, ∃ s, run Libm.crude (fun _ => TickGL.ok) (InitScene ⟨8192, 0⟩) n = some s ∧
          s.buffer.width ≤ 8192 ∧ s.buffer.height ≤ 8192) ∧
        (∀ n, 20 ≤ n → ∃ s, run Libm.crude (fun _ => TickGL.ok) (InitScene ⟨8192, 0⟩) n = some s ∧
          s.buffer.width = 8192 ∧ s.buffer.height = 8192 ∧ s.maxSizeReached = true ∧
          s.hasError = false ∧ s.invalidFramebuffer = false ∧
          frame Libm.crude (fun _ => TickGL.ok) (InitScene ⟨8192, 0⟩) n
            = some [Event.clear Framebuffer.window 0 0 1])) :=
  ⟨fun _ _ => TickGL.ok_good,
    end_to_end_growth Libm.crude (fun _ => TickGL.ok) (fun _ _ => TickGL.ok_good)⟩

end VariantB
